import Mathlib

/-!
Verification development for the multi-agent skill-gap pipeline
(orchestrator / analyzer / curator / judge, `src/src/agents` and
`src/src/integrations`).  The Python source is shallowly embedded:
pure helpers become Lean functions, each agent's interaction with the
external agent runtime / search API / cache is made explicit as an
environment value that the embedded function consumes, and Python
exceptions become `Except` / `Option` results.  Machine floats only
ever enter through JSON numbers and duration comparisons, so they are
modelled exactly as rationals.
-/

namespace Pipeline

/-! ## Python string primitives used by the agents

Python `str.strip`, `str.find`, `str.rfind`, slicing, `in`, `lower`
are modelled on the code-point list of the string (Python indexes
strings by code point, as `String.toList` does).
-/

/-- Python `needle in haystack` for a single-character needle. -/
def pyInChar (c : Char) (s : String) : Bool := s.toList.contains c

/-- `s.find(c)` for a one-character pattern: index of the first occurrence,
`Option.none` standing for Python's `-1`. -/
def pyFindChar (s : String) (c : Char) : Option Nat :=
  go s.toList 0
where
  go : List Char → Nat → Option Nat
    | [], _ => none
    | x :: xs, i => if x = c then some i else go xs (i + 1)

/-- `s.rfind(c)` for a one-character pattern: index of the last occurrence. -/
def pyRFindChar (s : String) (c : Char) : Option Nat :=
  go s.toList 0 none
where
  go : List Char → Nat → Option Nat → Option Nat
    | [], _, acc => acc
    | x :: xs, i, acc => go xs (i + 1) (if x = c then some i else acc)

/-- Python slice `s[a:b]` (with `0 ≤ a ≤ b`). -/
def pySlice (s : String) (a b : Nat) : String :=
  String.mk ((s.toList.drop a).take (b - a))

/-- Substring test, used for Python `needle in haystack` with a multi-character
needle (e.g. `"existing_skills" in final_response`). -/
def pyInStr (needle haystack : String) : Bool :=
  go needle.toList haystack.toList
where
  go (pat : List Char) : List Char → Bool
    | [] => pat.isEmpty
    | c :: rest => pat.isPrefixOf (c :: rest) || go pat rest

/-- The whitespace `str.strip()` removes (the ASCII part; the texts this
pipeline strips contain no other whitespace). -/
def pyWs (c : Char) : Bool :=
  c = ' ' || c = '\t' || c = '\n' || c = '\r' || c = '\x0b' || c = '\x0c'

/-- Python `str.strip()` (leading/trailing whitespace removed). -/
def pyStrip (s : String) : String :=
  String.mk (((s.toList.dropWhile pyWs).reverse.dropWhile pyWs).reverse)

/-- Lower-case one character (ASCII; the code only lowercases enum values
and job titles compared against ASCII keywords). -/
def pyLowerChar (c : Char) : Char :=
  if 'A' ≤ c && c ≤ 'Z' then Char.ofNat (c.toNat + 32) else c

/-- Python `str.lower()`. -/
def pyLower (s : String) : String := String.mk (s.toList.map pyLowerChar)

/-- Python `s.startswith(p)`. -/
def pyStartsWith (s p : String) : Bool := p.toList.isPrefixOf s.toList

/-- Python `s.endswith(p)`. -/
def pyEndsWith (s p : String) : Bool := p.toList.reverse.isPrefixOf s.toList.reverse

/-- Python slice `s[n:]`. -/
def pyDrop (s : String) (n : Nat) : String := String.mk (s.toList.drop n)

/-- Python slice `s[:-n]` (for `0 < n ≤ len(s)`). -/
def pyDropRight (s : String) (n : Nat) : String :=
  String.mk (s.toList.take (s.toList.length - n))

end Pipeline

namespace Pipeline

/-! ## Data model (`src/src/api/models.py`) -/

/-- `ProficiencyLevel` enum. -/
inductive ProficiencyLevel
  | beginner | intermediate | advanced | expert
  deriving DecidableEq, Repr

/-- `Priority` enum. -/
inductive Priority
  | critical | important | nice_to_have
  deriving DecidableEq, Repr

/-- `ResourceType` enum. -/
inductive ResourceType
  | course | tutorial | documentation | video | book | article
  deriving DecidableEq, Repr

/-- `AnalysisStatus` enum. -/
inductive AnalysisStatus
  | pending | in_progress | completed | failed
  deriving DecidableEq, Repr

/-- The string value of a `ProficiencyLevel`, as Python's `str`-valued enum. -/
def proficiencyOfString : String → Option ProficiencyLevel
  | "beginner" => some .beginner
  | "intermediate" => some .intermediate
  | "advanced" => some .advanced
  | "expert" => some .expert
  | _ => none

/-- `Priority(s)` coercion. -/
def priorityOfString : String → Option Priority
  | "critical" => some .critical
  | "important" => some .important
  | "nice_to_have" => some .nice_to_have
  | _ => none

/-- `ResourceType(s)` coercion; `none` models the `ValueError` branch. -/
def resourceTypeOfString : String → Option ResourceType
  | "course" => some .course
  | "tutorial" => some .tutorial
  | "documentation" => some .documentation
  | "video" => some .video
  | "book" => some .book
  | "article" => some .article
  | _ => none

/-- `SkillGap` model. -/
structure SkillGap where
  skill_name : String
  required_level : ProficiencyLevel
  priority : Priority
  recommended_starting_level : String
  deriving DecidableEq, Repr

/-- `ExistingSkill` model. -/
structure ExistingSkill where
  skill_name : String
  proficiency_level : ProficiencyLevel
  years_experience : Int
  deriving DecidableEq, Repr

/-- `MarketInsights` model. -/
structure MarketInsights where
  demand_level : String
  key_findings : List String
  data_sources : List String
  deriving DecidableEq, Repr

/-- `AnalysisResult` model. -/
structure AnalysisResult where
  existing_skills : List ExistingSkill
  skill_gaps : List SkillGap
  tech_stack : List String
  job_category : String
  market_insights : Option MarketInsights
  deriving DecidableEq, Repr

/-- `Resource` model.  `duration_hours` and `rating` are Python floats,
modelled exactly as rationals (they only ever come from JSON literals and
are only compared, never rounded). -/
structure Resource where
  title : String
  url : String
  provider : String
  resource_type : ResourceType
  difficulty_level : String
  duration_hours : ℚ
  is_free : Bool
  rating : Option ℚ
  description : String
  tech_stack_match : List String
  deriving DecidableEq, Repr

/-- `ResourceFilters` model (`max_duration_hours` is an `int` field that is
only compared against float durations, so a rational is exact). -/
structure ResourceFilters where
  free_only : Bool
  max_duration_hours : ℚ
  resource_types : List ResourceType
  deriving DecidableEq, Repr

/-- The field defaults of `ResourceFilters`. -/
def defaultFilters : ResourceFilters :=
  { free_only := true
    max_duration_hours := 100
    resource_types := [.course, .tutorial, .video] }

/-- `AnalysisRequest` model; `filters` is `Optional` with a default factory,
so an explicit `null` is representable. -/
structure AnalysisRequest where
  resume_text : String
  job_description : String
  target_job_title : String
  filters : Option ResourceFilters
  deriving DecidableEq, Repr

/-- `AnalysisResponse` model (the per-job record the orchestrator mutates).
`curated_resources` is a Python `dict`, modelled as an insertion-ordered
association list with distinct keys. -/
structure AnalysisResponse where
  job_id : String
  status : AnalysisStatus
  analysis_result : Option AnalysisResult
  curated_resources : List (String × List Resource)
  error_message : Option String
  deriving DecidableEq, Repr

/-- `AnalyzerInput` model. -/
structure AnalyzerInput where
  resume_text : String
  job_description : String
  target_job_title : String
  deriving DecidableEq, Repr

/-- Python `dict` assignment `d[k] = v`: overwrite in place when the key is
present, else append (insertion order preserved). -/
def dictInsert {α : Type} (d : List (String × α)) (k : String) (v : α) :
    List (String × α) :=
  match d with
  | [] => [(k, v)]
  | (k', v') :: rest =>
      if k' = k then (k, v) :: rest else (k', v') :: dictInsert rest k v

/-- Python `dict` lookup `d.get(k)`. -/
def dictGet {α : Type} (d : List (String × α)) (k : String) : Option α :=
  (d.find? (fun p => p.1 = k)).map (·.2)

end Pipeline

namespace Pipeline

/-! ## JSON values and `json.loads`

Agent output is parsed with Python's `json.loads`.  JSON numbers are
modelled exactly as rationals.  An object keeps insertion order with
later duplicate keys overwriting earlier ones, as Python dicts do.
`json.loads`'s non-standard `NaN`/`Infinity` literals are not modelled
(they have no exact rational value and never occur in this pipeline's
prompts or fallback data). -/

/-- A parsed JSON value. -/
inductive Json
  | null
  | bool (b : Bool)
  | num (q : ℚ)
  | str (s : String)
  | arr (elems : List Json)
  | obj (fields : List (String × Json))

/-- JSON whitespace accepted between tokens by `json.loads`. -/
def jsonWs (c : Char) : Bool :=
  c = ' ' || c = '\t' || c = '\n' || c = '\r'

/-- Skip JSON whitespace. -/
def skipWs : List Char → List Char
  | [] => []
  | c :: rest => if jsonWs c then skipWs rest else c :: rest

/-- Accumulate a run of decimal digits: value, digit count, remainder. -/
def takeDigits : List Char → Nat → Nat → Nat × Nat × List Char
  | [], acc, cnt => (acc, cnt, [])
  | c :: rest, acc, cnt =>
      if c.isDigit then takeDigits rest (acc * 10 + (c.toNat - 48)) (cnt + 1)
      else (acc, cnt, c :: rest)

/-- Parse a JSON number (`-? int frac? exp?`, leading zeros rejected).
The value is assembled as an integer mantissa over a power-of-ten
denominator via `mkRat`, which is exact for every decimal literal. -/
def parseNumber (cs : List Char) : Option (ℚ × List Char) :=
  let (neg, cs1) := match cs with
    | '-' :: r => (true, r)
    | _ => (false, cs)
  match cs1 with
  | [] => none
  | c :: _ =>
    if !c.isDigit then none
    else
      let (ip, ipCnt, cs2) := takeDigits cs1 0 0
      if ipCnt = 0 then none
      else if c = '0' && ipCnt ≠ 1 then none
      else
        let fracPart : Option (Nat × Nat × List Char) :=
          match cs2 with
          | '.' :: r =>
              let (fp, fpCnt, r') := takeDigits r 0 0
              if fpCnt = 0 then none else some (fp, fpCnt, r')
          | _ => some (0, 0, cs2)
        match fracPart with
        | none => none
        | some (fp, fpCnt, cs3) =>
          let expPart : Option (Int × List Char) :=
            match cs3 with
            | 'e' :: r | 'E' :: r =>
                let (eneg, r1) := match r with
                  | '-' :: r' => (true, r')
                  | '+' :: r' => (false, r')
                  | _ => (false, r)
                let (ev, evCnt, r2) := takeDigits r1 0 0
                if evCnt = 0 then none
                else some (if eneg then -(ev : Int) else (ev : Int), r2)
            | _ => some (0, cs3)
          match expPart with
          | none => none
          | some (e, r) =>
            let mantissa : Int := ip * 10 ^ fpCnt + fp
            let mantissa : Int := if neg then -mantissa else mantissa
            let shift : Int := e - fpCnt
            let q : ℚ :=
              if 0 ≤ shift then mkRat (mantissa * 10 ^ shift.toNat) 1
              else mkRat mantissa (10 ^ (-shift).toNat)
            some (q, r)

/-- Value of a hexadecimal digit. -/
def hexVal (c : Char) : Option Nat :=
  if c.isDigit then some (c.toNat - 48)
  else if 'a' ≤ c && c ≤ 'f' then some (c.toNat - 87)
  else if 'A' ≤ c && c ≤ 'F' then some (c.toNat - 55)
  else none

/-- Parse the body of a JSON string after the opening quote: content and
remainder after the closing quote.  `\uXXXX` escapes outside the valid
scalar range (unpaired surrogates) are rejected rather than paired. -/
def parseStrChars : List Char → Option (List Char × List Char)
  | [] => none
  | '"' :: rest => some ([], rest)
  | '\\' :: e :: rest =>
      (match e, rest with
       | '"', r => (parseStrChars r).map (fun (s, r') => ('"' :: s, r'))
       | '\\', r => (parseStrChars r).map (fun (s, r') => ('\\' :: s, r'))
       | '/', r => (parseStrChars r).map (fun (s, r') => ('/' :: s, r'))
       | 'b', r => (parseStrChars r).map (fun (s, r') => ('\x08' :: s, r'))
       | 'f', r => (parseStrChars r).map (fun (s, r') => ('\x0c' :: s, r'))
       | 'n', r => (parseStrChars r).map (fun (s, r') => ('\n' :: s, r'))
       | 'r', r => (parseStrChars r).map (fun (s, r') => ('\r' :: s, r'))
       | 't', r => (parseStrChars r).map (fun (s, r') => ('\t' :: s, r'))
       | 'u', h1 :: h2 :: h3 :: h4 :: r =>
           (match hexVal h1, hexVal h2, hexVal h3, hexVal h4 with
            | some a, some b, some c, some d =>
                let n := ((a * 16 + b) * 16 + c) * 16 + d
                if n.isValidChar then
                  (parseStrChars r).map (fun (s, r') => (Char.ofNat n :: s, r'))
                else none
            | _, _, _, _ => none)
       | _, _ => none)
  | c :: rest =>
      if c.toNat < 32 then none
      else (parseStrChars rest).map (fun (s, r') => (c :: s, r'))

/-- Mode of the single-function JSON parser: a value, the tail of an array,
or the tail of an object. -/
inductive ParseMode
  | val
  | elems (acc : List Json)
  | members (acc : List (String × Json))

/-- Fuel-indexed JSON parser (one structural recursion on the fuel so that
the kernel can evaluate it). -/
def parseRun : Nat → ParseMode → List Char → Option (Json × List Char)
  | 0, _, _ => none
  | fuel + 1, .val, cs =>
      (match skipWs cs with
       | [] => none
       | c :: rest =>
         if c = '{' then
           match skipWs rest with
           | '}' :: r => some (.obj [], r)
           | r => parseRun fuel (.members []) r
         else if c = '[' then
           match skipWs rest with
           | ']' :: r => some (.arr [], r)
           | r => parseRun fuel (.elems []) r
         else if c = '"' then
           (parseStrChars rest).map (fun (s, r) => (.str (String.mk s), r))
         else if c = 't' then
           match rest with
           | 'r' :: 'u' :: 'e' :: r => some (.bool true, r)
           | _ => none
         else if c = 'f' then
           match rest with
           | 'a' :: 'l' :: 's' :: 'e' :: r => some (.bool false, r)
           | _ => none
         else if c = 'n' then
           match rest with
           | 'u' :: 'l' :: 'l' :: r => some (.null, r)
           | _ => none
         else
           (parseNumber (c :: rest)).map (fun (q, r) => (.num q, r)))
  | fuel + 1, .elems acc, cs =>
      (match parseRun fuel .val cs with
       | none => none
       | some (v, rest) =>
         match skipWs rest with
         | ',' :: r => parseRun fuel (.elems (acc ++ [v])) r
         | ']' :: r => some (.arr (acc ++ [v]), r)
         | _ => none)
  | fuel + 1, .members acc, cs =>
      (match skipWs cs with
       | '"' :: rest =>
         match parseStrChars rest with
         | none => none
         | some (key, r1) =>
           match skipWs r1 with
           | ':' :: r2 =>
             match parseRun fuel .val r2 with
             | none => none
             | some (v, r3) =>
               match skipWs r3 with
               | ',' :: r4 => parseRun fuel (.members (dictInsert acc (String.mk key) v)) r4
               | '}' :: r4 => some (.obj (dictInsert acc (String.mk key) v), r4)
               | _ => none
           | _ => none
       | _ => none)

/-- `json.loads`: parse one JSON value and reject trailing non-whitespace
("Extra data"). -/
def jsonParse (s : String) : Option Json :=
  match parseRun (s.toList.length + 16) .val s.toList with
  | some (j, rest) => if (skipWs rest).isEmpty then some j else none
  | none => none

end Pipeline

namespace Pipeline

/-! ## Loosely-typed Python values and the Resource Normalizer
(`CuratorAgent._convert_to_resources`, `src/src/agents/curator.py`)

A candidate resource record is a parsed JSON object, i.e. a Python dict
whose values the code probes with `.get`, `.strip()`, `.lower()`,
`float(...)` and `bool(...)`.  Nested containers are only ever observed
through the exceptions those probes raise and through truthiness, so they
are carried as an `other` value with just a truthiness bit. -/

/-- A Python value as it appears in a parsed resource record. -/
inductive PyVal
  | str (s : String)
  | num (q : ℚ)
  | pybool (b : Bool)
  | pynull
  | other (truthy : Bool)
  deriving DecidableEq, Repr

/-- `v.strip()`: succeeds only on strings (anything else raises
`AttributeError`, which the caller's `except Exception` turns into a skip). -/
def pyStripVal : PyVal → Option String
  | .str s => some (pyStrip s)
  | _ => none

/-- `v.lower()`: succeeds only on strings. -/
def pyLowerVal : PyVal → Option String
  | .str s => some (pyLower s)
  | _ => none

/-- Python `bool(v)` (truthiness; total). -/
def pyTruthy : PyVal → Bool
  | .str s => s ≠ ""
  | .num q => q ≠ 0
  | .pybool b => b
  | .pynull => false
  | .other t => t

/-- Python `float(s)` on a string: optional surrounding whitespace and sign,
then digits with an optional point and an optional exponent (digit-group
underscores and the non-finite literals are not modelled; they never occur
in this pipeline's data). `none` models `ValueError`. -/
def pyFloatStr (s : String) : Option ℚ :=
  let cs := (pyStrip s).toList
  let (neg, cs1) := match cs with
    | '-' :: r => (true, r)
    | '+' :: r => (false, r)
    | _ => (false, cs)
  let (ip, ipCnt, cs2) := takeDigits cs1 0 0
  let fracPart : Nat × Nat × List Char :=
    match cs2 with
    | '.' :: r => takeDigits r 0 0
    | _ => (0, 0, cs2)
  match fracPart with
  | (fp, fpCnt, cs3) =>
    if ipCnt = 0 && fpCnt = 0 then none
    else
      let expPart : Option (Int × List Char) :=
        match cs3 with
        | 'e' :: r | 'E' :: r =>
            let (eneg, r1) := match r with
              | '-' :: r' => (true, r')
              | '+' :: r' => (false, r')
              | _ => (false, r)
            let (ev, evCnt, r2) := takeDigits r1 0 0
            if evCnt = 0 then none
            else some (if eneg then -(ev : Int) else (ev : Int), r2)
        | _ => some (0, cs3)
      match expPart with
      | none => none
      | some (e, r) =>
        if !r.isEmpty then none
        else
          let mantissa : Int := ip * 10 ^ fpCnt + fp
          let mantissa : Int := if neg then -mantissa else mantissa
          let shift : Int := e - fpCnt
          some (if 0 ≤ shift then mkRat (mantissa * 10 ^ shift.toNat) 1
                else mkRat mantissa (10 ^ (-shift).toNat))

/-- Python `float(v)`: numbers pass through, booleans become 0/1, strings
are parsed, everything else raises (`none` models `ValueError`/`TypeError`). -/
def pyFloat : PyVal → Option ℚ
  | .num q => some q
  | .pybool b => some (if b then 1 else 0)
  | .str s => pyFloatStr s
  | _ => none

/-- The fields of a candidate resource dict that
`_convert_to_resources` reads; `none` means the key is absent. -/
structure RawItem where
  title : Option PyVal
  url : Option PyVal
  provider : Option PyVal
  resource_type : Option PyVal
  difficulty_level : Option PyVal
  duration_hours : Option PyVal
  is_free : Option PyVal
  rating : Option PyVal
  description : Option PyVal
  deriving DecidableEq, Repr

/-- A `RawItem` with every key absent. -/
def RawItem.empty : RawItem :=
  { title := none, url := none, provider := none, resource_type := none
    difficulty_level := none, duration_hours := none, is_free := none
    rating := none, description := none }

/-- An element of the parsed top-level array: a dict or something else
(`if not isinstance(item, dict): continue`). -/
inductive RawEntry
  | obj (item : RawItem)
  | nonobj
  deriving DecidableEq, Repr

/-- Pydantic coercion of a required `str` field (v2 rejects non-strings);
`none` is a `ValidationError` swallowed by the per-item handler. -/
def pyStrField : PyVal → Option String
  | .str s => some s
  | _ => none

/-- Pydantic lax coercion of the `Optional[float]` field `rating`:
`None` passes, numbers pass, numeric strings coerce, the rest fail. -/
def pyOptFloatField : PyVal → Option (Option ℚ)
  | .pynull => some none
  | .num q => some (some q)
  | .str s => (pyFloatStr s).map some
  | _ => none

/-- One iteration of the `_convert_to_resources` loop: `none` models every
`continue` (missing/blank required field, or an exception swallowed by the
per-item `except Exception`), `some r` a resource that survived the
filters. -/
def convertItem (skill_gap : SkillGap) (filters : ResourceFilters)
    (item : RawItem) : Option Resource := do
  let title ← pyStripVal (item.title.getD (.str ""))
  let url ← pyStripVal (item.url.getD (.str ""))
  if title = "" || url = "" then none
  else do
    let rts ← pyLowerVal (item.resource_type.getD (.str "tutorial"))
    let resource_type := (resourceTypeOfString rts).getD .tutorial
    let duration_hours := (pyFloat (item.duration_hours.getD (.num 10))).getD 10
    let providerS ← pyStripVal (item.provider.getD (.str "Unknown"))
    let provider := if providerS = "" then "Unknown" else providerS
    let difficulty_level ← pyStrField (item.difficulty_level.getD
      (.str skill_gap.recommended_starting_level))
    let is_free := pyTruthy (item.is_free.getD (.pybool true))
    let rating ← pyOptFloatField (item.rating.getD .pynull)
    let description ← pyStripVal (item.description.getD (.str ""))
    let resource : Resource :=
      { title, url, provider, resource_type, difficulty_level, duration_hours
        is_free, rating, description
        tech_stack_match := [skill_gap.skill_name] }
    if filters.free_only && !resource.is_free then none
    else if resource.duration_hours > filters.max_duration_hours then none
    else if !filters.resource_types.contains resource.resource_type then none
    else some resource

/-- `_convert_to_resources`: normalize every usable entry, skipping the
rest. -/
def convertToResources (json_data : List RawEntry) (skill_gap : SkillGap)
    (filters : ResourceFilters) : List Resource :=
  json_data.filterMap fun e =>
    match e with
    | .obj item => convertItem skill_gap filters item
    | .nonobj => none

/-- View of a parsed JSON value as a Python value probed by the normalizer. -/
def pyValOfJson : Json → PyVal
  | .null => .pynull
  | .bool b => .pybool b
  | .num q => .num q
  | .str s => .str s
  | .arr xs => .other (!xs.isEmpty)
  | .obj fs => .other (!fs.isEmpty)

/-- Project the fields the normalizer reads out of a JSON object. -/
def rawItemOfFields (fs : List (String × Json)) : RawItem :=
  { title := (dictGet fs "title").map pyValOfJson
    url := (dictGet fs "url").map pyValOfJson
    provider := (dictGet fs "provider").map pyValOfJson
    resource_type := (dictGet fs "resource_type").map pyValOfJson
    difficulty_level := (dictGet fs "difficulty_level").map pyValOfJson
    duration_hours := (dictGet fs "duration_hours").map pyValOfJson
    is_free := (dictGet fs "is_free").map pyValOfJson
    rating := (dictGet fs "rating").map pyValOfJson
    description := (dictGet fs "description").map pyValOfJson }

/-- An element of a parsed JSON array as a candidate resource record. -/
def rawEntryOfJson : Json → RawEntry
  | .obj fs => .obj (rawItemOfFields fs)
  | _ => .nonobj

end Pipeline

namespace Pipeline

/-! ## Structured-output extraction

All three agents strip markdown fences the same way (strip; drop a
leading ```json, then a leading ```; drop a trailing ```; strip) before
locating a JSON payload.  The analyzer walks brace depth from the first
`{`; the judge and the curator instead slice from the first opening
bracket to the *last* closing bracket. -/

/-- The shared fence-stripping preamble. -/
def fenceStrip (text : String) : String :=
  let t := pyStrip text
  let t := if pyStartsWith t "```json" then pyDrop t 7 else t
  let t := if pyStartsWith t "```" then pyDrop t 3 else t
  let t := if pyEndsWith t "```" then pyDropRight t 3 else t
  pyStrip t

/-- Brace-depth walk of `_extract_json_with_fallback`: from a position
holding the first `{`, the exclusive end offset at which the depth first
returns to zero. -/
def braceScan : List Char → Int → Nat → Option Nat
  | [], _, _ => none
  | c :: rest, depth, i =>
      if c = '{' then braceScan rest (depth + 1) (i + 1)
      else if c = '}' then
        if depth - 1 = 0 then some (i + 1) else braceScan rest (depth - 1) (i + 1)
      else braceScan rest depth (i + 1)

/-- The balanced-object span: from the first `{` until brace depth returns
to zero; `none` when there is no `{` or the braces never re-balance. -/
def locateObjectSpan (r : String) : Option String :=
  match pyFindChar r '{' with
  | none => none
  | some start =>
      match braceScan (r.toList.drop start) 0 0 with
      | none => none
      | some len => some (pySlice r start (start + len))

/-- The naive span used by the judge and the curator: from the first `a`
to one past the last `b` (`text.find(a)` / `text.rfind(b) + 1`), provided
the slice is non-degenerate. -/
def firstToLastSpan (t : String) (a b : Char) : Option String :=
  match pyFindChar t a, pyRFindChar t b with
  | some s, some e => if s ≤ e then some (pySlice t s (e + 1)) else none
  | _, _ => none

/-- The two failure modes of `_extract_json_with_fallback`, both raised as
`ValueError` (the spec's `MalformedOutput`): no balanced object located,
or `json.loads` failing on the located span. -/
inductive ExtractErr
  | noJson
  | invalidJson
  deriving DecidableEq, Repr

/-- `AnalyzerAgent._extract_json_with_fallback`. -/
def extractJsonWithFallback (response : String) : Except ExtractErr Json :=
  let r := fenceStrip response
  if pyInChar '{' r then
    match locateObjectSpan r with
    | some span =>
        match jsonParse span with
        | some j => .ok j
        | none => .error .invalidJson
    | none => .error .noJson
  else .error .noJson

/-- Python `key in parsed` on an arbitrary parsed JSON value: membership for
dicts and lists, substring for strings, `TypeError` (`none`) otherwise. -/
def pyContainsKey (key : String) : Json → Option Bool
  | .obj fields => some (fields.any (fun p => p.1 = key))
  | .arr xs => some (xs.any fun j => match j with | .str s => s = key | _ => false)
  | .str s => some (pyInStr key s)
  | _ => none

/-- The JSON span the judge's extraction selects for a block text
(`judge.py` lines 212–231): the raw text must contain `{`; after fence
stripping the text must still contain `{`; then the slice runs from the
first `{` to one past the last `}` (`text.find("{")` / `text.rfind("}") + 1`). -/
def judgeSelectedSpan (text : String) : Option String :=
  if pyInChar '{' text then
    let t := fenceStrip text
    if pyInChar '{' t then firstToLastSpan t '{' '}' else none
  else none

/-- One assistant text block scanned by `JudgeAgent._autonomous_validate`:
the judge-selected span, parsed, kept when the parsed value contains
`relevance_score`; every exception path is a `continue` (`none`). -/
def scanJudgementBlock (raw : String) : Option Json :=
  match judgeSelectedSpan raw with
  | some span =>
      match jsonParse span with
      | some j =>
          match pyContainsKey "relevance_score" j with
          | some true => some j
          | _ => none
      | none => none
  | none => none

/-- The judge's message loop: the first block yielding a judgement. -/
def scanJudgement : List String → Option Json
  | [] => none
  | m :: rest =>
      match scanJudgementBlock m with
      | some j => some j
      | none => scanJudgement rest

/-- One assistant text block scanned by `CuratorAgent._curate_for_skill`:
fence-strip, slice first `[` to last `]`, parse, and keep only a
non-empty array. -/
def scanCuratorBlock (raw : String) : Option (List Json) :=
  let t := fenceStrip raw
  if pyInChar '[' t then
    match firstToLastSpan t '[' ']' with
    | some span =>
        match jsonParse span with
        | some (.arr xs) => if xs.isEmpty then none else some xs
        | _ => none
    | none => none
  else none

/-- The curator's message loop: the first non-empty parsed array. -/
def scanCuratorMessages : List String → Option (List Json)
  | [] => none
  | m :: rest =>
      match scanCuratorBlock m with
      | some xs => some xs
      | none => scanCuratorMessages rest

end Pipeline

namespace Pipeline

/-! ## Curator (`src/src/agents/curator.py`, with the static fallback data
of `ParallelTaskAPI._get_mock_resources` in
`src/src/integrations/parallel_api.py`)

The per-skill environment records the outcome of each external
interaction: the autonomous session (its assistant text blocks, or a
raised exception), whether a search collaborator is configured, what that
collaborator returns (it catches internally and never raises), and
whether either `disconnect()` call itself raises — the one on the happy
path and the unprotected one inside the `except` block. -/

/-- The mock resource dicts of `ParallelTaskAPI._get_mock_resources`,
projected onto the keys `_convert_to_resources` reads.  The dicts also
carry `type`/`difficulty`/`reasoning`/`confidence` keys, but the
normalizer reads `resource_type`/`difficulty_level`, so those keys are
invisible to it and absent here. -/
def mockResources (skill : String) (_level : String) : List RawEntry :=
  let skill_lower := pyLower skill
  [ .obj { RawItem.empty with
      title := some (.str (skill ++ " for Beginners - Complete Guide"))
      url := some (.str ("https://www.udemy.com/course/" ++ skill_lower ++ "-beginners"))
      description := some (.str ("Comprehensive " ++ skill ++ " course covering fundamentals to advanced concepts"))
      provider := some (.str "Udemy")
      is_free := some (.pybool false) }
  , .obj { RawItem.empty with
      title := some (.str ("Learn " ++ skill ++ " - Free Interactive Tutorial"))
      url := some (.str ("https://www.freecodecamp.org/learn/" ++ skill_lower))
      description := some (.str ("Free interactive " ++ skill ++ " tutorial with hands-on exercises"))
      provider := some (.str "freeCodeCamp")
      is_free := some (.pybool true) }
  , .obj { RawItem.empty with
      title := some (.str (skill ++ " Tutorial for Beginners"))
      url := some (.str ("https://www.youtube.com/results?search_query=" ++ skill_lower ++ "+tutorial"))
      description := some (.str ("Step-by-step " ++ skill ++ " video tutorial for beginners"))
      provider := some (.str "YouTube")
      is_free := some (.pybool true) }
  , .obj { RawItem.empty with
      title := some (.str (skill ++ " Complete Course"))
      url := some (.str ("https://www.coursera.org/learn/" ++ skill_lower))
      description := some (.str ("University-level " ++ skill ++ " course with certificate"))
      provider := some (.str "Coursera")
      is_free := some (.pybool true) } ]

/-- Environment of one `_curate_for_skill` task. -/
structure CuratorSkillEnv where
  session : Except Unit (List String)
  hasParallelApi : Bool
  searchResults : List RawEntry
  disconnectRaises : Bool
  cleanupRaises : Bool
  deriving Repr

/-- The fallback chain shared by the no-array path and the `except` path:
the search collaborator (when configured), then the static mock data.
The second component records whether the search tier was attempted. -/
def curatorFallback (env : CuratorSkillEnv) (gap : SkillGap)
    (filters : ResourceFilters) : List Resource × Bool :=
  if env.hasParallelApi then
    let rs := convertToResources env.searchResults gap filters
    if !rs.isEmpty then (rs, true)
    else (convertToResources
      (mockResources gap.skill_name gap.recommended_starting_level) gap filters, true)
  else
    (convertToResources
      (mockResources gap.skill_name gap.recommended_starting_level) gap filters, false)

/-- `_curate_for_skill`: `.error` is an exception escaping the task (only
possible when the `except`-path `disconnect()` itself raises); otherwise
the curated list together with the flag of whether the external-search
tier was attempted. -/
def curateForSkillE (env : CuratorSkillEnv) (gap : SkillGap)
    (filters : ResourceFilters) : Except Unit (List Resource × Bool) :=
  match env.session with
  | .ok msgs =>
      if env.disconnectRaises then
        if env.cleanupRaises then .error ()
        else .ok (curatorFallback env gap filters)
      else
        match scanCuratorMessages msgs with
        | some arr => .ok (convertToResources (arr.map rawEntryOfJson) gap filters, false)
        | none => .ok (curatorFallback env gap filters)
  | .error _ =>
      if env.cleanupRaises then .error ()
      else .ok (curatorFallback env gap filters)

/-- `curate_resources`: fan out one task per skill gap and compile the
result dict, recording an exception-terminated task as an empty list. -/
def curateResources (env : SkillGap → CuratorSkillEnv)
    (skill_gaps : List SkillGap) (_tech_stack : List String)
    (filters : ResourceFilters) : List (String × List Resource) :=
  skill_gaps.foldl (fun acc gap =>
    dictInsert acc gap.skill_name
      (match curateForSkillE (env gap) gap filters with
       | .error _ => []
       | .ok (rs, _) => rs)) []

end Pipeline

namespace Pipeline

/-! ## Judge (`src/src/agents/judge.py`)

`validate_resources` tests the first `validate_top_n` resources one at a
time; the environment gives each tested resource's session outcome by
position.  A boolean `relevance_score` is handled *numerically*: Python's
`bool` is an `int` subclass, so both the `f"{score:.2f}"` log format and
the `score >= threshold` comparison succeed with `False` as 0 and `True`
as 1 — a `false` score is really dropped.  Every exception — a failed
session, a judgement that is not a dict, a string/null/container score
raising in the `:.2f` format or the `>=` comparison — funnels into
keeping the resource. -/

/-- Default `relevance_threshold` of `JudgeAgent.__init__`. -/
def defaultRelevanceThreshold : ℚ := mkRat 7 10

/-- Default `validate_top_n` of `JudgeAgent.__init__`. -/
def defaultValidateTopN : Nat := 5

/-- The numeric value Python's `>=` sees for a JSON `relevance_score`:
numbers are themselves and booleans are 0/1 (`bool` is an `int`
subclass); `none` is the `TypeError`/`ValueError` a string, null or
container raises in the `:.2f` format or the comparison. -/
def scoreAsNumber : Json → Option ℚ
  | .num q => some q
  | .bool b => some (if b then 1 else 0)
  | _ => none

/-- Whether one tested resource is kept: the decision rule of the
`validate_resources` loop body. -/
def judgeStep (sess : Except Unit (List String)) (threshold : ℚ) : Bool :=
  match sess with
  | .error _ => true
  | .ok msgs =>
      match scanJudgement msgs with
      | none => true
      | some (.obj fields) =>
          match dictGet fields "relevance_score" with
          | some v =>
              match scoreAsNumber v with
              | some q => decide (threshold ≤ q)
              | none => true
          | none => decide ((0 : ℚ) ≥ threshold)
      | some _ => true

/-- The `validate_resources` loop over the to-be-tested prefix. -/
def judgeLoop (env : Nat → Except Unit (List String)) (threshold : ℚ) :
    Nat → List Resource → List Resource
  | _, [] => []
  | i, r :: rest =>
      if judgeStep (env i) threshold then r :: judgeLoop env threshold (i + 1) rest
      else judgeLoop env threshold (i + 1) rest

/-- `JudgeAgent.validate_resources`. -/
def validateResources (env : Nat → Except Unit (List String)) (threshold : ℚ)
    (validate_top_n : Nat) (_skill_gap : SkillGap) (resources : List Resource) :
    List Resource :=
  if resources.isEmpty then []
  else judgeLoop env threshold 0 (resources.take validate_top_n)
    ++ resources.drop validate_top_n

end Pipeline

namespace Pipeline

/-! ## Analyzer (`src/src/agents/analyzer.py`)

The environment records connect/send/stream outcomes.  Assistant
messages are lists of text-block texts (the fallback
`agent_actions[-1].content[0].text` indexes into them, so empty block
lists matter).  Both `disconnect()` calls — the happy-path one and the
unprotected one inside `except` — can themselves raise. -/

/-- Environment of one `AnalyzerAgent.analyze` run. -/
structure AnalyzerEnv where
  connect : Except Unit Unit
  send : Except Unit Unit
  stream : Except Unit (List (List String))
  disconnectRaises : Bool
  cleanupRaises : Bool

/-- The message-consumption loop: per assistant message the first
`{`-containing block overwrites `final_response`, and the loop stops
early once `final_response` contains `existing_skills`. -/
def analyzerLoop : List (List String) → Option String → Option String
  | [], acc => acc
  | m :: rest, acc =>
      let acc' := match m.find? (fun t => pyInChar '{' t) with
        | some t => some t
        | none => acc
      match acc' with
      | some r =>
          if pyInStr "existing_skills" r then some r else analyzerLoop rest acc'
      | none => analyzerLoop rest acc'

/-- `final_response` after the loop, including the
`agent_actions[-1].content[0].text if agent_actions else ""` fallback;
`none` models the `IndexError` of indexing an empty block list. -/
def analyzerFinalResponse (msgs : List (List String)) : Option String :=
  match analyzerLoop msgs none with
  | some r => some r
  | none =>
      match msgs.getLast? with
      | some m => m.head?
      | none => some ""

/-- A string as a (signed) decimal integer literal, for pydantic's lax
`str → int` coercion. -/
def pyIntStr (s : String) : Option Int :=
  let cs := s.toList
  let (neg, cs1) := match cs with
    | '-' :: r => (true, r)
    | '+' :: r => (false, r)
    | _ => (false, cs)
  match takeDigits cs1 0 0 with
  | (v, cnt, rest) =>
      if cnt = 0 || !rest.isEmpty then none
      else some (if neg then -(v : Int) else (v : Int))

/-- Pydantic lax coercion of a required `int` field: ints and integral
floats pass, an integer-literal string coerces, booleans and everything
else are rejected. -/
def pyIntField : Json → Option Int
  | .num q => if q.den = 1 then some q.num else none
  | .str s => pyIntStr s
  | _ => none

/-- Pydantic coercion of one `existing_skills` entry
(`ExistingSkill(**skill)`); `none` is a `ValidationError`/`TypeError`. -/
def convertExistingSkill (j : Json) : Option ExistingSkill :=
  match j with
  | .obj fs => do
      let name ← match dictGet fs "skill_name" with
        | some (.str s) => some s | _ => none
      let pl ← match dictGet fs "proficiency_level" with
        | some (.str s) => proficiencyOfString s | _ => none
      let y ← match dictGet fs "years_experience" with
        | some v => pyIntField v
        | none => none
      some { skill_name := name, proficiency_level := pl, years_experience := y }
  | _ => none

/-- Pydantic coercion of one `skill_gaps` entry (`SkillGap(**gap)`). -/
def convertSkillGap (j : Json) : Option SkillGap :=
  match j with
  | .obj fs => do
      let name ← match dictGet fs "skill_name" with
        | some (.str s) => some s | _ => none
      let lvl ← match dictGet fs "required_level" with
        | some (.str s) => proficiencyOfString s | _ => none
      let pr ← match dictGet fs "priority" with
        | some (.str s) => priorityOfString s | _ => none
      let rec' ← match dictGet fs "recommended_starting_level" with
        | some (.str s) => some s | _ => none
      some { skill_name := name, required_level := lvl, priority := pr
             recommended_starting_level := rec' }
  | _ => none

/-- A JSON value as a `List[str]` pydantic field. -/
def convertStrList (j : Json) : Option (List String) :=
  match j with
  | .arr xs => xs.mapM fun x => match x with | .str s => some s | _ => none
  | _ => none

/-- `MarketInsights(**data["market_insights"])`. -/
def convertMarketInsights (j : Json) : Option MarketInsights :=
  match j with
  | .obj fs => do
      let dl ← match dictGet fs "demand_level" with
        | some (.str s) => some s | _ => none
      let kf ← match dictGet fs "key_findings" with
        | some v => convertStrList v | none => some []
      let ds ← match dictGet fs "data_sources" with
        | some v => convertStrList v | none => some []
      some { demand_level := dl, key_findings := kf, data_sources := ds }
  | _ => none

/-- `AnalyzerAgent._convert_to_model`: schema validation of the extracted
JSON; `none` is any exception (caught by `analyze` and turned into the
mock analysis). -/
def convertToModel (data : Json) : Option AnalysisResult :=
  match data with
  | .obj fs => do
      let es ← match dictGet fs "existing_skills" with
        | some (.arr xs) => xs.mapM convertExistingSkill
        | some _ => none
        | none => some []
      let gaps ← match dictGet fs "skill_gaps" with
        | some (.arr xs) => xs.mapM convertSkillGap
        | some _ => none
        | none => some []
      let ts ← match dictGet fs "tech_stack" with
        | some v => convertStrList v
        | none => some []
      let jc ← match dictGet fs "job_category" with
        | some (.str s) => some s
        | some _ => none
        | none => some "Unknown"
      let mi ← match dictGet fs "market_insights" with
        | some v => (convertMarketInsights v).map some
        | none => some none
      some { existing_skills := es, skill_gaps := gaps, tech_stack := ts
             job_category := jc, market_insights := mi }
  | _ => none

/-- `AnalyzerAgent._generate_mock_analysis`: the deterministic fallback
keyed off keyword matches in the lowercased target job title. -/
def generateMockAnalysis (input_data : AnalyzerInput) : AnalysisResult :=
  let job_title_lower := pyLower input_data.target_job_title
  let mock_gaps : List SkillGap :=
    if pyInStr "cloud" job_title_lower || pyInStr "infrastructure" job_title_lower then
      [ { skill_name := "AWS/Cloud Platforms", required_level := .advanced
          priority := .critical, recommended_starting_level := "intermediate" }
      , { skill_name := "Kubernetes", required_level := .advanced
          priority := .critical, recommended_starting_level := "intermediate" }
      , { skill_name := "Infrastructure as Code", required_level := .intermediate
          priority := .important, recommended_starting_level := "beginner" }
      , { skill_name := "Docker", required_level := .intermediate
          priority := .important, recommended_starting_level := "beginner" }
      , { skill_name := "System Performance Optimization", required_level := .advanced
          priority := .critical, recommended_starting_level := "intermediate" } ]
    else if pyInStr "data" job_title_lower then
      [ { skill_name := "SQL", required_level := .advanced
          priority := .critical, recommended_starting_level := "intermediate" }
      , { skill_name := "Python Data Science", required_level := .advanced
          priority := .critical, recommended_starting_level := "intermediate" }
      , { skill_name := "Machine Learning", required_level := .intermediate
          priority := .important, recommended_starting_level := "beginner" } ]
    else
      [ { skill_name := "System Design", required_level := .advanced
          priority := .critical, recommended_starting_level := "intermediate" }
      , { skill_name := "Algorithms", required_level := .intermediate
          priority := .important, recommended_starting_level := "beginner" } ]
  { existing_skills :=
      [ { skill_name := "Python", proficiency_level := .intermediate, years_experience := 3 }
      , { skill_name := "Git", proficiency_level := .intermediate, years_experience := 5 } ]
    skill_gaps := mock_gaps
    tech_stack := ["Python", "Cloud", "DevOps"]
    job_category := input_data.target_job_title
    market_insights := none }

/-- The body of `analyze`'s `try` block: `none` is any exception reaching
the `except` handler. -/
def analyzeAttempt (env : AnalyzerEnv) : Option AnalysisResult :=
  match env.connect with
  | .error _ => none
  | .ok _ =>
    match env.send with
    | .error _ => none
    | .ok _ =>
      match env.stream with
      | .error _ => none
      | .ok msgs =>
        if env.disconnectRaises then none
        else
          match analyzerFinalResponse msgs with
          | none => none
          | some resp =>
              match extractJsonWithFallback resp with
              | .error _ => none
              | .ok data => convertToModel data

/-- `AnalyzerAgent.analyze`: the `except` handler produces the mock
analysis — unless its own unprotected `disconnect()` raises, in which
case the exception escapes (`.error`). -/
def analyze (env : AnalyzerEnv) (input_data : AnalyzerInput) :
    Except Unit AnalysisResult :=
  match analyzeAttempt env with
  | some r => .ok r
  | none =>
      if env.cleanupRaises then .error ()
      else .ok (generateMockAnalysis input_data)

end Pipeline

namespace Pipeline

/-! ## Redis cache (`src/src/integrations/redis_cache.py`) and
Orchestrator (`src/src/agents/orchestrator.py`)

The store is the key-value content of Redis.  SHA-256 is an external
primitive, abstracted as a `hash` function parameter.  Serialization
(`model_dump_json` on write, `AnalysisResult(**json.loads(...))` on
read) is lossless on these models and is modelled as the identity.
Both cache methods catch every exception internally: a failing `get`
is a miss, a failing `setex` leaves the store unchanged. -/

/-- The contents of the shared cache. -/
abbrev CacheStore := List (String × AnalysisResult)

/-- `RedisCache._generate_cache_key`:
`"skill_analysis:" + sha256(f"{resume_text}|{job_description}")`. -/
def generateCacheKey (hash : String → String)
    (resume_text job_description : String) : String :=
  "skill_analysis:" ++ hash (resume_text ++ "|" ++ job_description)

/-- Environment of the cache collaborator. -/
structure CacheEnv where
  hash : String → String
  getRaises : Bool
  putRaises : Bool

/-- `RedisCache.get_analysis` (an internal exception yields a miss). -/
def getAnalysis (cenv : CacheEnv) (store : CacheStore)
    (resume_text job_description : String) : Option AnalysisResult :=
  if cenv.getRaises then none
  else dictGet store (generateCacheKey cenv.hash resume_text job_description)

/-- `RedisCache.cache_analysis` (an internal exception leaves the store
unchanged; the caller never sees it). -/
def cacheAnalysis (cenv : CacheEnv) (store : CacheStore)
    (resume_text job_description : String) (analysis_result : AnalysisResult) :
    CacheStore :=
  if cenv.putRaises then store
  else dictInsert store (generateCacheKey cenv.hash resume_text job_description)
    analysis_result

/-- Environment of one `OrchestratorAgent.process_request` run. -/
structure OrchestratorEnv where
  cache : CacheEnv
  analyzerEnv : AnalyzerEnv
  curatorEnv : SkillGap → CuratorSkillEnv
  judgeSess : String → Nat → Except Unit (List String)
  enable_judge : Bool
  enable_cache : Bool
  relevance_threshold : ℚ
  validate_top_n : Nat

/-- Phase 3 of `process_request`: judge each non-empty skill's list
sequentially, keeping keys and replacing values. -/
def judgePhase (judgeSess : String → Nat → Except Unit (List String))
    (threshold : ℚ) (topN : Nat) (skill_gaps : List SkillGap)
    (curated : List (String × List Resource)) : List (String × List Resource) :=
  curated.foldl (fun acc p =>
    dictInsert acc p.1
      (if !p.2.isEmpty then
         match skill_gaps.find? (fun sg => sg.skill_name = p.1) with
         | some gap => validateResources (judgeSess p.1) threshold topN gap p.2
         | none => p.2
       else [])) []

/-- `OrchestratorAgent.process_request`.  Returns the response, the cache
store after the run, and whether the analyzer session was invoked.
An `AnalysisRequest` whose `filters` is an explicit `null` reaches
`curate_resources`, whose `filters.free_only` read raises; that
exception escapes to the orchestrator's `except` handler — which sets
`status = FAILED` but leaves `error_message` unset.  The
observability-only learning metrics of `_learn_from_execution` do not
affect the response and are not modelled. -/
def processRequest (env : OrchestratorEnv) (store : CacheStore)
    (job_id : String) (request : AnalysisRequest) :
    AnalysisResponse × CacheStore × Bool :=
  let response0 : AnalysisResponse :=
    { job_id, status := .in_progress, analysis_result := none
      curated_resources := [], error_message := none }
  let afterAnalysis : AnalysisResult → Bool → AnalysisResponse × CacheStore × Bool :=
    fun a invoked =>
      let response1 := { response0 with analysis_result := some a }
      let store1 :=
        if env.enable_cache then
          cacheAnalysis env.cache store request.resume_text request.job_description a
        else store
      match request.filters with
      | none => ({ response1 with status := .failed }, store1, invoked)
      | some filters =>
          let curated := curateResources env.curatorEnv a.skill_gaps a.tech_stack filters
          let final :=
            if env.enable_judge then
              judgePhase env.judgeSess env.relevance_threshold env.validate_top_n
                a.skill_gaps curated
            else curated
          ({ response1 with curated_resources := final, status := .completed },
            store1, invoked)
  match (if env.enable_cache then
           getAnalysis env.cache store request.resume_text request.job_description
         else none) with
  | some cached => afterAnalysis cached false
  | none =>
      match analyze env.analyzerEnv
        { resume_text := request.resume_text
          job_description := request.job_description
          target_job_title := request.target_job_title } with
      | .error _ => ({ response0 with status := .failed }, store, true)
      | .ok a => afterAnalysis a true

end Pipeline

namespace Pipeline

/-! ## Statement-level helpers and concrete instances -/

/-- The keys of a modelled Python dict, in insertion order. -/
def dictKeys {α : Type} (d : List (String × α)) : List String := d.map (·.1)

/-- The span the brace-counting extractor of §4.1
(`_extract_json_with_fallback`) selects for the same text. -/
def analyzerSelectedSpan (text : String) : Option String :=
  locateObjectSpan (fenceStrip text)

end Pipeline

namespace Pipeline

/-- A sample skill gap used by the concrete evaluations below. -/
def gapW : SkillGap :=
  { skill_name := "Rust", required_level := .advanced, priority := .critical
    recommended_starting_level := "beginner" }

/-- A second sample skill gap whose name collides with itself when listed
twice. -/
def gapPythonW : SkillGap :=
  { skill_name := "Python", required_level := .advanced, priority := .critical
    recommended_starting_level := "beginner" }

/-- Two sample resources fed to the judge. -/
def resourceAW : Resource :=
  { title := "A", url := "https://a.example", provider := "P"
    resource_type := .tutorial, difficulty_level := "beginner"
    duration_hours := 5, is_free := true, rating := none, description := "d"
    tech_stack_match := ["Rust"] }

/-- See `resourceAW`. -/
def resourceBW : Resource :=
  { resourceAW with title := "B", url := "https://b.example" }

/-- A curator-task environment whose autonomous session streams a parsable
non-empty array that the filters then empty out (the `is_free: false` item
meets `free_only`), with a search collaborator configured. -/
def curatorEnvTier1EmptyW : CuratorSkillEnv :=
  { session := .ok ["[\x7b\"title\": \"T\", \"url\": \"U\", \"is_free\": false\x7d]"]
    hasParallelApi := true, searchResults := [], disconnectRaises := false
    cleanupRaises := false }

/-- A curator-task environment whose session streams nothing useful and
that has no search collaborator (every run lands on the static mock
tier). -/
def curatorEnvQuietW : CuratorSkillEnv :=
  { session := .ok [], hasParallelApi := false, searchResults := []
    disconnectRaises := false, cleanupRaises := false }

/-- An analyzer environment whose connect raises and whose cleanup
disconnect succeeds: `analyze` lands on the mock analysis. -/
def analyzerEnvDownW : AnalyzerEnv :=
  { connect := .error (), send := .ok (), stream := .ok []
    disconnectRaises := false, cleanupRaises := false }

/-- An orchestrator environment over a degraded world: the analyzer
session is down (mock analysis), curator sessions stream nothing, judge
sessions stream nothing, cache enabled with an identity-stand-in hash. -/
def orchestratorEnvW : OrchestratorEnv :=
  { cache := { hash := fun s => s, getRaises := false, putRaises := false }
    analyzerEnv := analyzerEnvDownW
    curatorEnv := fun _ => curatorEnvQuietW
    judgeSess := fun _ _ => .ok []
    enable_judge := true, enable_cache := true
    relevance_threshold := mkRat 7 10, validate_top_n := 5 }

/-- A request with default filters. -/
def requestW : AnalysisRequest :=
  { resume_text := "3 years Python, Flask, PostgreSQL"
    job_description := "Looking for DevOps"
    target_job_title := "Senior DevOps Engineer"
    filters := some defaultFilters }

/-- The same request with an explicit `filters: null`, which makes
`curate_resources` raise on `filters.free_only`. -/
def requestNullFiltersW : AnalysisRequest :=
  { requestW with filters := none }

/-! ## Supporting lemmas -/

lemma pyFindChar_go_isSome_iff (c : Char) :
    ∀ (l : List Char) (i : Nat), (pyFindChar.go c l i).isSome = l.contains c := by
  intro l
  induction l with
  | nil => intro i; simp [pyFindChar.go]
  | cons x xs ih =>
      intro i
      by_cases hx : x = c
      · simp [pyFindChar.go, hx]
      · simp [pyFindChar.go, hx, ih (i + 1), Ne.symm hx]

lemma pyFindChar_isSome_iff (s : String) (c : Char) :
    (pyFindChar s c).isSome = pyInChar c s := by
  simpa [pyFindChar, pyInChar] using pyFindChar_go_isSome_iff c s.toList 0

lemma pyInChar_of_pyFindChar_eq_some {s : String} {c : Char} {i : Nat}
    (h : pyFindChar s c = some i) : pyInChar c s = true := by
  have := pyFindChar_isSome_iff s c
  rw [h] at this
  simpa using this.symm

lemma pyFindChar_eq_none_of_not_pyInChar {s : String} {c : Char}
    (h : pyInChar c s = false) : pyFindChar s c = none := by
  have := pyFindChar_isSome_iff s c
  rw [h] at this
  exact Option.not_isSome_iff_eq_none.mp (by simp [this])

lemma braceScan_le {L : Nat} :
    ∀ {l : List Char} {d : Int} {i : Nat}, braceScan l d i = some L → i + 1 ≤ L := by
  intro l
  induction l with
  | nil => intro d i h; simp [braceScan] at h
  | cons x xs ih =>
      intro d i h
      unfold braceScan at h
      by_cases h1 : x = '{'
      · simp [h1] at h
        exact Nat.le_of_succ_le (ih h)
      · by_cases h2 : x = '}'
        · simp [h1, h2] at h
          by_cases h3 : d - 1 = 0
          · simp [h3] at h; omega
          · simp [h3] at h
            exact Nat.le_of_succ_le (ih h)
        · simp [h1, h2] at h
          exact Nat.le_of_succ_le (ih h)

end Pipeline

namespace Pipeline

lemma dictGet_dictInsert_self {α : Type} (d : List (String × α)) (k : String) (v : α) :
    dictGet (dictInsert d k v) k = some v := by
  induction d with
  | nil => simp [dictInsert, dictGet]
  | cons p rest ih =>
      by_cases h : p.1 = k
      · simp [dictInsert, dictGet, h]
      · simp only [dictInsert, dictGet] at ih ⊢
        simp [h, ih]

lemma dictGet_dictInsert_other {α : Type} (d : List (String × α)) (k k' : String) (v : α)
    (h : k' ≠ k) : dictGet (dictInsert d k v) k' = dictGet d k' := by
  induction d with
  | nil => simp [dictInsert, dictGet, Ne.symm h]
  | cons p rest ih =>
      by_cases hp : p.1 = k
      · subst hp
        simp [dictInsert, dictGet, Ne.symm h, h]
      · by_cases hq : p.1 = k'
        · subst hq
          simp [dictInsert, dictGet, hp]
        · simp only [dictGet] at ih
          simp [dictInsert, dictGet, hp, hq, ih]

lemma mem_dictKeys_dictInsert {α : Type} (d : List (String × α)) (k k' : String) (v : α) :
    k' ∈ dictKeys (dictInsert d k v) ↔ k' ∈ dictKeys d ∨ k' = k := by
  induction d with
  | nil => simp [dictInsert, dictKeys, eq_comm]
  | cons p rest ih =>
      by_cases hp : p.1 = k
      · subst hp
        rw [show dictInsert (p :: rest) p.1 v = (p.1, v) :: rest from by
          simp [dictInsert]]
        simp only [dictKeys, List.map_cons, List.mem_cons]
        tauto
      · rw [show dictInsert (p :: rest) k v = (p.1, p.2) :: dictInsert rest k v from by
          simp [dictInsert, hp]]
        simp only [dictKeys, List.map_cons, List.mem_cons] at ih ⊢
        tauto

lemma dictKeys_length_dictInsert_of_not_mem {α : Type} (d : List (String × α)) (k : String)
    (v : α) (h : k ∉ dictKeys d) : (dictInsert d k v).length = d.length + 1 := by
  induction d with
  | nil => simp [dictInsert]
  | cons p rest ih =>
      simp only [dictKeys, List.map_cons, List.mem_cons] at h
      push_neg at h
      have hp : ¬ p.1 = k := fun he => h.1 he.symm
      simp only [dictInsert, if_neg hp, List.length_cons]
      rw [ih h.2]

lemma dictKeys_length_dictInsert_of_mem {α : Type} (d : List (String × α)) (k : String)
    (v : α) (h : k ∈ dictKeys d) : (dictInsert d k v).length = d.length := by
  induction d with
  | nil => simp [dictKeys] at h
  | cons p rest ih =>
      by_cases hp : p.1 = k
      · simp [dictInsert, if_pos hp, hp]
      · simp only [dictKeys, List.map_cons, List.mem_cons] at h
        rcases h with h | h
        · exact absurd h.symm hp
        · simp only [dictInsert, if_neg hp, List.length_cons]
          rw [ih h]

end Pipeline

namespace Pipeline

section FoldKeys

variable {α β : Type}

lemma mem_dictKeys_foldl_dictInsert (key : β → String) (f : β → α) :
    ∀ (l : List β) (init : List (String × α)) (k : String),
      k ∈ dictKeys (l.foldl (fun acc b => dictInsert acc (key b) (f b)) init) →
      k ∈ dictKeys init ∨ k ∈ l.map key := by
  intro l
  induction l with
  | nil => intro init k h; simp only [List.foldl_nil] at h; exact Or.inl h
  | cons b rest ih =>
      intro init k h
      simp only [List.foldl_cons] at h
      rcases ih _ k h with h' | h'
      · rcases (mem_dictKeys_dictInsert init (key b) k (f b)).mp h' with h'' | h''
        · exact Or.inl h''
        · exact Or.inr (by simp [h''])
      · exact Or.inr (by simp [h'])

lemma dictKeys_mono_foldl_dictInsert (key : β → String) (f : β → α) :
    ∀ (l : List β) (init : List (String × α)) (k : String), k ∈ dictKeys init →
      k ∈ dictKeys (l.foldl (fun acc b => dictInsert acc (key b) (f b)) init) := by
  intro l
  induction l with
  | nil => intro init k hk; simpa using hk
  | cons y ys ihy =>
      intro init k hk
      simp only [List.foldl_cons]
      exact ihy _ k ((mem_dictKeys_dictInsert init (key y) k (f y)).mpr (Or.inl hk))

lemma key_mem_dictKeys_foldl_dictInsert (key : β → String) (f : β → α) :
    ∀ (l : List β) (init : List (String × α)) (b : β), b ∈ l →
      key b ∈ dictKeys (l.foldl (fun acc b => dictInsert acc (key b) (f b)) init) := by
  intro l
  induction l with
  | nil => intro init b h; simp at h
  | cons x rest ih =>
      intro init b h
      simp only [List.foldl_cons]
      rcases List.mem_cons.mp h with h' | h'
      · subst h'
        exact dictKeys_mono_foldl_dictInsert key f rest _ (key b)
          ((mem_dictKeys_dictInsert init (key b) (key b) (f b)).mpr (Or.inr rfl))
      · exact ih _ b h'

lemma length_foldl_dictInsert_of_nodup (key : β → String) (f : β → α) :
    ∀ (l : List β) (init : List (String × α)),
      (l.map key).Nodup → (∀ b ∈ l, key b ∉ dictKeys init) →
      (l.foldl (fun acc b => dictInsert acc (key b) (f b)) init).length =
        init.length + l.length := by
  intro l
  induction l with
  | nil => intro init _ _; simp
  | cons b rest ih =>
      intro init hnd hdisj
      simp only [List.map_cons, List.nodup_cons] at hnd
      simp only [List.foldl_cons]
      have h1 : key b ∉ dictKeys init := hdisj b (List.mem_cons_self b rest)
      have h2 : ∀ x ∈ rest, key x ∉ dictKeys (dictInsert init (key b) (f b)) := by
        intro x hx hmem
        rcases (mem_dictKeys_dictInsert init (key b) (key x) (f b)).mp hmem with h' | h'
        · exact hdisj x (List.mem_cons_of_mem b hx) h'
        · exact hnd.1 (by simpa [h'] using List.mem_map_of_mem key hx)
      rw [ih _ hnd.2 h2, dictKeys_length_dictInsert_of_not_mem init (key b) (f b) h1]
      simp only [List.length_cons]
      omega

lemma dictGet_foldl_dictInsert_of_not_mem (key : β → String) (f : β → α) :
    ∀ (l : List β) (init : List (String × α)) (k : String), k ∉ l.map key →
      dictGet (l.foldl (fun acc b => dictInsert acc (key b) (f b)) init) k =
        dictGet init k := by
  intro l
  induction l with
  | nil => intro init k _; rfl
  | cons b rest ih =>
      intro init k h
      simp only [List.map_cons, List.mem_cons] at h
      push_neg at h
      simp only [List.foldl_cons]
      rw [ih _ k h.2, dictGet_dictInsert_other init (key b) k (f b) h.1]

lemma dictGet_foldl_dictInsert_of_nodup (key : β → String) (f : β → α) :
    ∀ (l : List β) (init : List (String × α)) (b : β), b ∈ l → (l.map key).Nodup →
      dictGet (l.foldl (fun acc b => dictInsert acc (key b) (f b)) init) (key b) =
        some (f b) := by
  intro l
  induction l with
  | nil => intro init b h _; simp at h
  | cons x rest ih =>
      intro init b h hnd
      simp only [List.map_cons, List.nodup_cons] at hnd
      simp only [List.foldl_cons]
      rcases List.mem_cons.mp h with h' | h'
      · subst h'
        have hnot : key b ∉ rest.map key := hnd.1
        rw [dictGet_foldl_dictInsert_of_not_mem key f rest _ (key b) hnot]
        exact dictGet_dictInsert_self init (key b) (f b)
      · exact ih _ b h' hnd.2

end FoldKeys

end Pipeline

namespace Pipeline

end Pipeline

namespace Pipeline

/-- **C4 (amended).** `curate_resources` produces one dict key per
*distinct* skill name: when the skill-gap names are pairwise distinct the
output has exactly N keys, every gap's name is a key (with an
exception-terminated task recorded as an empty list rather than omitted),
the keys are always a subset of the gap names, and they remain so through
the orchestrator's judge phase. -/
theorem curator_output_keys_spec (env : SkillGap → CuratorSkillEnv)
    (skill_gaps : List SkillGap) (ts : List String) (filters : ResourceFilters)
    (judgeSess : String → Nat → Except Unit (List String)) (th : ℚ) (topN : Nat) :
    ((skill_gaps.map (·.skill_name)).Nodup →
       (curateResources env skill_gaps ts filters).length = skill_gaps.length) ∧
    (∀ gap ∈ skill_gaps,
       gap.skill_name ∈ dictKeys (curateResources env skill_gaps ts filters)) ∧
    (∀ k ∈ dictKeys (curateResources env skill_gaps ts filters),
       k ∈ skill_gaps.map (·.skill_name)) ∧
    (∀ gap ∈ skill_gaps, (skill_gaps.map (·.skill_name)).Nodup →
       curateForSkillE (env gap) gap filters = .error () →
       dictGet (curateResources env skill_gaps ts filters) gap.skill_name = some []) ∧
    (∀ k ∈ dictKeys (judgePhase judgeSess th topN skill_gaps
        (curateResources env skill_gaps ts filters)),
       k ∈ skill_gaps.map (·.skill_name)) := by
  have hcur : curateResources env skill_gaps ts filters =
      skill_gaps.foldl (fun acc gap => dictInsert acc gap.skill_name
        ((fun gap => match curateForSkillE (env gap) gap filters with
          | .error _ => []
          | .ok (rs, _) => rs) gap)) [] := rfl
  refine ⟨?_, ?_, ?_, ?_, ?_⟩
  · intro hnd
    rw [hcur, length_foldl_dictInsert_of_nodup (fun gap => gap.skill_name) _ skill_gaps []
      hnd (by intro b _ hb; simp [dictKeys] at hb)]
    simp
  · intro gap hmem
    rw [hcur]
    exact key_mem_dictKeys_foldl_dictInsert (fun gap => gap.skill_name) _ skill_gaps [] gap hmem
  · intro k hk
    rw [hcur] at hk
    rcases mem_dictKeys_foldl_dictInsert (fun gap => gap.skill_name) _ skill_gaps [] k hk with h | h
    · simp [dictKeys] at h
    · simpa using h
  · intro gap hmem hnd herr
    rw [hcur, dictGet_foldl_dictInsert_of_nodup (fun gap => gap.skill_name) _ skill_gaps [] gap hmem hnd]
    simp [herr]
  · intro k hk
    have hsub : ∀ k ∈ dictKeys (judgePhase judgeSess th topN skill_gaps
        (curateResources env skill_gaps ts filters)),
        k ∈ dictKeys (curateResources env skill_gaps ts filters) := by
      intro k' hk'
      unfold judgePhase at hk'
      rcases mem_dictKeys_foldl_dictInsert (fun p => p.1)
        (fun p => if !p.2.isEmpty then
           match skill_gaps.find? (fun sg => sg.skill_name = p.1) with
           | some gap => validateResources (judgeSess p.1) th topN gap p.2
           | none => p.2
         else []) (curateResources env skill_gaps ts filters) [] k' hk' with h | h
      · simp [dictKeys] at h
      · exact h
    have hk2 := hsub k hk
    rw [hcur] at hk2
    rcases mem_dictKeys_foldl_dictInsert (fun gap => gap.skill_name) _ skill_gaps [] k hk2 with h | h
    · simp [dictKeys] at h
    · simpa using h

/-- Concrete run of `curator_output_keys_spec` on a two-gap list with
distinct names over the quiet environment. -/
theorem curator_output_keys_spec_witness :
    (curateResources (fun _ => curatorEnvQuietW) [gapW, gapPythonW] [] defaultFilters).length = 2 ∧
    "Rust" ∈ dictKeys (curateResources (fun _ => curatorEnvQuietW) [gapW, gapPythonW] [] defaultFilters) := by
  constructor
  · exact (curator_output_keys_spec (fun _ => curatorEnvQuietW) [gapW, gapPythonW] []
      defaultFilters (fun _ _ => .ok []) (mkRat 7 10) 5).1 (by decide)
  · exact (curator_output_keys_spec (fun _ => curatorEnvQuietW) [gapW, gapPythonW] []
      defaultFilters (fun _ _ => .ok []) (mkRat 7 10) 5).2.1 gapW (by decide)

/-- A duplicated skill name collapses the dict: two gaps both named
`Python` give one key, refuting "exactly N keys for every skill-gap list
of length N". -/
theorem curator_output_keys_counterexample :
    [gapPythonW, gapPythonW].length = 2 ∧
    (curateResources (fun _ => curatorEnvQuietW) [gapPythonW, gapPythonW] [] defaultFilters).length = 1 := by
  exact ⟨rfl, rfl⟩

end Pipeline

namespace Pipeline

/-- **C2 (amended).** In `_curate_for_skill`, the external-search tier is
attempted exactly when the autonomous tier raised or streamed no parsable
non-empty JSON array (and a search collaborator is configured); when the
autonomous tier does parse a non-empty array, its normalized and filtered
list is returned directly with the search tier unattempted — even when
that list is empty. -/
theorem curator_tier2_trigger (env : CuratorSkillEnv) (gap : SkillGap)
    (filters : ResourceFilters) (hapi : env.hasParallelApi = true) :
    (∀ e : Unit, env.session = .error e → env.cleanupRaises = false →
       ∃ rs, curateForSkillE env gap filters = .ok (rs, true)) ∧
    (∀ msgs, env.session = .ok msgs → env.disconnectRaises = false →
       scanCuratorMessages msgs = none →
       ∃ rs, curateForSkillE env gap filters = .ok (rs, true)) ∧
    (∀ msgs arr, env.session = .ok msgs → env.disconnectRaises = false →
       scanCuratorMessages msgs = some arr →
       curateForSkillE env gap filters =
         .ok (convertToResources (arr.map rawEntryOfJson) gap filters, false)) := by
  refine ⟨?_, ?_, ?_⟩
  · intro e hs hc
    rw [curateForSkillE, hs, hc]
    simp only [Bool.false_eq_true, if_false]
    unfold curatorFallback
    rw [hapi]
    by_cases h : (convertToResources env.searchResults gap filters).isEmpty
    · exact ⟨convertToResources
        (mockResources gap.skill_name gap.recommended_starting_level) gap filters,
        by simp [h]⟩
    · exact ⟨convertToResources env.searchResults gap filters, by simp [h]⟩
  · intro msgs hs hd hscan
    rw [curateForSkillE, hs, hd]
    simp only [Bool.false_eq_true, if_false, hscan]
    unfold curatorFallback
    rw [hapi]
    by_cases h : (convertToResources env.searchResults gap filters).isEmpty
    · exact ⟨convertToResources
        (mockResources gap.skill_name gap.recommended_starting_level) gap filters,
        by simp [h]⟩
    · exact ⟨convertToResources env.searchResults gap filters, by simp [h]⟩
  · intro msgs arr hs hd hscan
    rw [curateForSkillE, hs, hd]
    simp [hscan]

/-- Concrete run of `curator_tier2_trigger`: with a configured search
collaborator, a raised session and a quiet session both attempt tier 2. -/
theorem curator_tier2_trigger_witness :
    (∃ rs, curateForSkillE { curatorEnvTier1EmptyW with session := .error () }
      gapW defaultFilters = .ok (rs, true)) ∧
    (∃ rs, curateForSkillE { curatorEnvTier1EmptyW with session := .ok [] }
      gapW defaultFilters = .ok (rs, true)) := by
  constructor
  · exact (curator_tier2_trigger { curatorEnvTier1EmptyW with session := .error () }
      gapW defaultFilters rfl).1 () rfl rfl
  · exact (curator_tier2_trigger { curatorEnvTier1EmptyW with session := .ok [] }
      gapW defaultFilters rfl).2.1 [] rfl rfl rfl

/-- The claim's counterexample: the autonomous tier parses a one-element
array whose only item is non-free, `free_only` filters it out, and the
empty list is returned with the search tier unattempted — tier 1 yielded
zero usable resources after normalization and filtering, yet tier 2 was
not tried. -/
theorem curator_tier2_skip_counterexample :
    (scanCuratorMessages ["[\x7b\"title\": \"T\", \"url\": \"U\", \"is_free\": false\x7d]"]).map List.length = some 1 ∧
    curatorEnvTier1EmptyW.hasParallelApi = true ∧
    curateForSkillE curatorEnvTier1EmptyW gapW defaultFilters = .ok ([], false) := by
  exact ⟨rfl, rfl, rfl⟩

end Pipeline

namespace Pipeline

lemma convertItem_skip_of_blank (sg : SkillGap) (filters : ResourceFilters)
    (item : RawItem)
    (h : (pyStripVal (item.title.getD (.str ""))).getD "" = "" ∨
         (pyStripVal (item.url.getD (.str ""))).getD "" = "") :
    convertItem sg filters item = none := by
  unfold convertItem
  cases ht : pyStripVal (item.title.getD (.str "")) with
  | none => rfl
  | some t =>
      cases hu : pyStripVal (item.url.getD (.str "")) with
      | none => rfl
      | some u =>
          rw [ht, hu] at h
          simp only [Option.getD_some] at h
          have : t = "" ∨ u = "" := h
          simp only [Option.bind_eq_bind, Option.some_bind]
          rcases this with h' | h' <;> simp [h']

lemma convertItem_some_spec (sg : SkillGap) (filters : ResourceFilters) (item : RawItem)
    (r : Resource) (h : convertItem sg filters item = some r) :
    r.tech_stack_match = [sg.skill_name] ∧
    (filters.free_only = true → r.is_free = true) ∧
    r.duration_hours ≤ filters.max_duration_hours ∧
    r.resource_type ∈ filters.resource_types := by
  unfold convertItem at h
  simp only [Option.bind_eq_bind] at h
  obtain ⟨t, ht, h⟩ := Option.bind_eq_some.mp h
  obtain ⟨u, hu, h⟩ := Option.bind_eq_some.mp h
  split at h
  · exact absurd h (by simp)
  · obtain ⟨rts, hrts, h⟩ := Option.bind_eq_some.mp h
    obtain ⟨ps, hps, h⟩ := Option.bind_eq_some.mp h
    obtain ⟨dl, hdl, h⟩ := Option.bind_eq_some.mp h
    obtain ⟨rat, hrat, h⟩ := Option.bind_eq_some.mp h
    obtain ⟨ds, hds, h⟩ := Option.bind_eq_some.mp h
    split at h
    · exact absurd h (by simp)
    · split at h
      · exact absurd h (by simp)
      · split at h
        · exact absurd h (by simp)
        · rename_i hfree hdur htype
          injection h with h
          subst h
          refine ⟨rfl, ?_, ?_, ?_⟩
          · intro hf
            simp only [hf, Bool.true_and, Bool.not_eq_true'] at hfree
            simpa using hfree
          · simpa using hdur
          · simpa using htype

end Pipeline

namespace Pipeline

lemma convertItem_eq (sg : SkillGap) (filters : ResourceFilters) (item : RawItem)
    (t u rts ps dl ds : String) (rat : Option ℚ)
    (ht : pyStripVal (item.title.getD (.str "")) = some t)
    (hu : pyStripVal (item.url.getD (.str "")) = some u)
    (hblank : (t = "" || u = "") = false)
    (hrts : pyLowerVal (item.resource_type.getD (.str "tutorial")) = some rts)
    (hps : pyStripVal (item.provider.getD (.str "Unknown")) = some ps)
    (hdl : pyStrField (item.difficulty_level.getD
      (.str sg.recommended_starting_level)) = some dl)
    (hrat : pyOptFloatField (item.rating.getD .pynull) = some rat)
    (hds : pyStripVal (item.description.getD (.str "")) = some ds) :
    convertItem sg filters item =
      (let resource : Resource :=
        { title := t, url := u, provider := if ps = "" then "Unknown" else ps
          resource_type := (resourceTypeOfString rts).getD .tutorial
          difficulty_level := dl
          duration_hours := (pyFloat (item.duration_hours.getD (.num 10))).getD 10
          is_free := pyTruthy (item.is_free.getD (.pybool true)), rating := rat
          description := ds, tech_stack_match := [sg.skill_name] }
      if filters.free_only && !resource.is_free then none
      else if resource.duration_hours > filters.max_duration_hours then none
      else if !filters.resource_types.contains resource.resource_type then none
      else some resource) := by
  unfold convertItem
  simp only [Option.bind_eq_bind]
  rw [ht, Option.some_bind, hu, Option.some_bind, if_neg (by simp only [hblank]; simp)]
  rw [hrts, Option.some_bind, hps, Option.some_bind, hdl, Option.some_bind,
    hrat, Option.some_bind, hds, Option.some_bind]

lemma convertItem_fields (sg : SkillGap) (filters : ResourceFilters) (item : RawItem)
    (r : Resource) (h : convertItem sg filters item = some r) :
    ∃ rts ps dl : String,
      pyLowerVal (item.resource_type.getD (.str "tutorial")) = some rts ∧
      pyStripVal (item.provider.getD (.str "Unknown")) = some ps ∧
      pyStrField (item.difficulty_level.getD
        (.str sg.recommended_starting_level)) = some dl ∧
      r.resource_type = (resourceTypeOfString rts).getD .tutorial ∧
      r.duration_hours = (pyFloat (item.duration_hours.getD (.num 10))).getD 10 ∧
      r.provider = (if ps = "" then "Unknown" else ps) ∧
      r.is_free = pyTruthy (item.is_free.getD (.pybool true)) ∧
      r.difficulty_level = dl := by
  unfold convertItem at h
  simp only [Option.bind_eq_bind] at h
  obtain ⟨t, ht, h⟩ := Option.bind_eq_some.mp h
  obtain ⟨u, hu, h⟩ := Option.bind_eq_some.mp h
  split at h
  · exact absurd h (by simp)
  · obtain ⟨rts, hrts, h⟩ := Option.bind_eq_some.mp h
    obtain ⟨ps, hps, h⟩ := Option.bind_eq_some.mp h
    obtain ⟨dl, hdl, h⟩ := Option.bind_eq_some.mp h
    obtain ⟨rat, hrat, h⟩ := Option.bind_eq_some.mp h
    obtain ⟨ds, hds, h⟩ := Option.bind_eq_some.mp h
    split at h
    · exact absurd h (by simp)
    · split at h
      · exact absurd h (by simp)
      · split at h
        · exact absurd h (by simp)
        · injection h with h
          subst h
          exact ⟨rts, ps, dl, hrts, hps, hdl, rfl, rfl, rfl, rfl, rfl⟩

end Pipeline

namespace Pipeline

/-- **C5.** The normalizer skips (without raising — it is total) any item
whose stripped `title` or `url` is missing, non-string or empty; every
resource it produces is tagged with the originating skill name and
satisfies the filter predicates; `resource_type` defaults to `tutorial`
on an unrecognized (or absent) value, `duration_hours` to `10.0` on parse
failure (or absence), and `provider` to `"Unknown"` when blank (or
absent); and at the list level every output of `_convert_to_resources`
satisfies the filter predicates. -/
theorem curator_normalizer_spec (sg : SkillGap) (filters : ResourceFilters) :
    (∀ item : RawItem,
       ((pyStripVal (item.title.getD (.str ""))).getD "" = "" ∨
        (pyStripVal (item.url.getD (.str ""))).getD "" = "") →
       convertItem sg filters item = none) ∧
    (∀ (item : RawItem) (r : Resource), convertItem sg filters item = some r →
       r.tech_stack_match = [sg.skill_name] ∧
       (filters.free_only = true → r.is_free = true) ∧
       r.duration_hours ≤ filters.max_duration_hours ∧
       r.resource_type ∈ filters.resource_types) ∧
    (∀ (item : RawItem) (r : Resource), convertItem sg filters item = some r →
       (∀ s, item.resource_type = some (.str s) →
          resourceTypeOfString (pyLower s) = none → r.resource_type = .tutorial) ∧
       (item.resource_type = none → r.resource_type = .tutorial) ∧
       (∀ v, item.duration_hours = some v → pyFloat v = none → r.duration_hours = 10) ∧
       (item.duration_hours = none → r.duration_hours = 10) ∧
       (∀ s, item.provider = some (.str s) → pyStrip s = "" → r.provider = "Unknown") ∧
       (item.provider = none → r.provider = "Unknown")) ∧
    (∀ (data : List RawEntry) (r : Resource), r ∈ convertToResources data sg filters →
       (filters.free_only = true → r.is_free = true) ∧
       r.duration_hours ≤ filters.max_duration_hours ∧
       r.resource_type ∈ filters.resource_types) := by
  refine ⟨convertItem_skip_of_blank sg filters, ?_, ?_, ?_⟩
  · intro item r h
    exact convertItem_some_spec sg filters item r h
  · intro item r h
    obtain ⟨rts, ps, dl, hrts, hps, hdl, hrt, hdur, hprov, _, _⟩ :=
      convertItem_fields sg filters item r h
    refine ⟨?_, ?_, ?_, ?_, ?_, ?_⟩
    · intro s hs hnone
      rw [hs] at hrts
      simp only [Option.getD_some, pyLowerVal] at hrts
      obtain rfl : pyLower s = rts := by injection hrts
      rw [hrt, hnone]
      rfl
    · intro hnone
      rw [hnone] at hrts
      simp only [Option.getD_none, pyLowerVal] at hrts
      have : rts = "tutorial" := by
        have : pyLower "tutorial" = "tutorial" := by decide
        rw [this] at hrts
        injection hrts with h'
        exact h'.symm
      rw [hrt, this]
      rfl
    · intro v hv hfail
      rw [hv] at hdur
      simp only [Option.getD_some] at hdur
      rw [hdur, hfail]
      rfl
    · intro hnone
      rw [hnone] at hdur
      simp only [Option.getD_none] at hdur
      rw [hdur]
      rfl
    · intro s hs hblank
      rw [hs] at hps
      simp only [Option.getD_some, pyStripVal] at hps
      obtain rfl : pyStrip s = ps := by injection hps
      rw [hprov, if_pos hblank]
    · intro hnone
      rw [hnone] at hps
      simp only [Option.getD_none, pyStripVal] at hps
      have : ps = "Unknown" := by
        have : pyStrip "Unknown" = "Unknown" := by decide
        rw [this] at hps
        injection hps with h'
        exact h'.symm
      rw [hprov, this]
      decide
  · intro data r hmem
    simp only [convertToResources, List.mem_filterMap] at hmem
    obtain ⟨e, _, he⟩ := hmem
    cases e with
    | nonobj => exact absurd he (by simp)
    | obj item =>
        have := convertItem_some_spec sg filters item r he
        exact ⟨this.2.1, this.2.2.1, this.2.2.2⟩

end Pipeline

namespace Pipeline

/-- Concrete run of `curator_normalizer_spec`: the all-absent item is
skipped, and a title/url-only item is produced tagged with the skill. -/
theorem curator_normalizer_spec_witness :
    convertItem gapW defaultFilters RawItem.empty = none ∧
    ({ title := "Learn Rust", url := "https://rust.example", provider := "Unknown"
       resource_type := .tutorial, difficulty_level := "beginner"
       duration_hours := 10, is_free := true, rating := none, description := ""
       tech_stack_match := ["Rust"] } : Resource).tech_stack_match = [gapW.skill_name] := by
  refine ⟨(curator_normalizer_spec gapW defaultFilters).1 RawItem.empty (Or.inl rfl),
    ((curator_normalizer_spec gapW defaultFilters).2.1
      { RawItem.empty with title := some (.str "Learn Rust")
                           url := some (.str "https://rust.example") }
      _ (by rfl)).1⟩

/-- **C10.** A raw item carrying only a non-blank string `title` and
`url` is constructed with `is_free = true` (so it survives the
`free_only` filter — no hypothesis on `free_only` is needed) and with
`difficulty_level` defaulted to the gap's recommended starting level, and
it appears in the normalizer's output whenever the remaining duration and
type filters admit the defaults. -/
theorem normalizer_missing_field_defaults (sg : SkillGap) (filters : ResourceFilters)
    (item : RawItem) (t u : String)
    (ht : item.title = some (.str t)) (ht' : ¬ pyStrip t = "")
    (hu : item.url = some (.str u)) (hu' : ¬ pyStrip u = "")
    (hprov : item.provider = none) (hrt : item.resource_type = none)
    (hdiff : item.difficulty_level = none) (hdur : item.duration_hours = none)
    (hfreeA : item.is_free = none) (hrating : item.rating = none)
    (hdesc : item.description = none)
    (htype : ResourceType.tutorial ∈ filters.resource_types)
    (hmax : (10 : ℚ) ≤ filters.max_duration_hours) :
    convertItem sg filters item = some
      { title := pyStrip t, url := pyStrip u, provider := "Unknown"
        resource_type := .tutorial, difficulty_level := sg.recommended_starting_level
        duration_hours := 10, is_free := true, rating := none, description := ""
        tech_stack_match := [sg.skill_name] } ∧
    (∀ data : List RawEntry, RawEntry.obj item ∈ data →
       ({ title := pyStrip t, url := pyStrip u, provider := "Unknown"
          resource_type := .tutorial, difficulty_level := sg.recommended_starting_level
          duration_hours := 10, is_free := true, rating := none, description := ""
          tech_stack_match := [sg.skill_name] } : Resource) ∈
         convertToResources data sg filters) := by
  have key := convertItem_eq sg filters item (pyStrip t) (pyStrip u) "tutorial" "Unknown"
    sg.recommended_starting_level "" none
    (by rw [ht]; rfl) (by rw [hu]; rfl)
    (by simp [ht', hu'])
    (by rw [hrt]; decide) (by rw [hprov]; decide)
    (by rw [hdiff]; rfl) (by rw [hrating]; rfl) (by rw [hdesc]; decide)
  rw [hdur] at key
  have hfirst : convertItem sg filters item = some
      { title := pyStrip t, url := pyStrip u, provider := "Unknown"
        resource_type := .tutorial, difficulty_level := sg.recommended_starting_level
        duration_hours := 10, is_free := true, rating := none, description := ""
        tech_stack_match := [sg.skill_name] } := by
    rw [key, hfreeA]
    simp only [Option.getD_none]
    have hcont : filters.resource_types.contains ResourceType.tutorial = true :=
      List.elem_eq_true_of_mem htype
    have hrty : (resourceTypeOfString "tutorial").getD ResourceType.tutorial =
        ResourceType.tutorial := by decide
    rw [if_neg (by simp [pyTruthy]), if_neg (by simp [pyFloat, not_lt.mpr hmax]),
      if_neg (by simp [hrty, htype])]
    simp [pyFloat, pyTruthy, hrty]
  refine ⟨hfirst, ?_⟩
  intro data hd
  exact List.mem_filterMap.mpr ⟨.obj item, hd, hfirst⟩

/-- Concrete run of `normalizer_missing_field_defaults` with
`free_only = true`: the item still appears, free by default. -/
theorem normalizer_missing_field_defaults_witness :
    convertItem gapW defaultFilters
      { RawItem.empty with title := some (.str "Rust Book")
                           url := some (.str "https://doc.rust-lang.org/book") } = some
      { title := "Rust Book", url := "https://doc.rust-lang.org/book"
        provider := "Unknown", resource_type := .tutorial
        difficulty_level := "beginner", duration_hours := 10, is_free := true
        rating := none, description := "", tech_stack_match := ["Rust"] } ∧
    defaultFilters.free_only = true := by
  constructor
  · have := (normalizer_missing_field_defaults gapW defaultFilters
      { RawItem.empty with title := some (.str "Rust Book")
                           url := some (.str "https://doc.rust-lang.org/book") }
      "Rust Book" "https://doc.rust-lang.org/book"
      rfl (by decide) rfl (by decide) rfl rfl rfl rfl rfl rfl rfl
      (by decide) (by decide)).1
    simpa using this
  · rfl

end Pipeline

namespace Pipeline

lemma locateObjectSpan_some_pyInChar {r : String} {span : String}
    (h : locateObjectSpan r = some span) : pyInChar '{' r = true := by
  unfold locateObjectSpan at h
  cases hf : pyFindChar r '{' with
  | none => rw [hf] at h; exact absurd h (by simp)
  | some s => exact pyInChar_of_pyFindChar_eq_some hf

/-- **C7.** `_extract_json_with_fallback` fails with `MalformedOutput`
(a `ValueError`) whenever no balanced brace span can be located in the
fence-stripped text — including truncated text whose braces never
re-balance — and it never returns data that did not come from parsing
the located span: when a balanced span exists, exactly that span (first
`{` until brace depth returns to zero) is what `json.loads` receives. -/
theorem extractor_malformed_spec :
    (∀ text, locateObjectSpan (fenceStrip text) = none →
       extractJsonWithFallback text = .error .noJson) ∧
    (∀ text span, locateObjectSpan (fenceStrip text) = some span →
       extractJsonWithFallback text =
         (match jsonParse span with
          | some j => .ok j
          | none => .error .invalidJson)) ∧
    (∀ text j, extractJsonWithFallback text = .ok j →
       ∃ span, locateObjectSpan (fenceStrip text) = some span ∧
         jsonParse span = some j) := by
  refine ⟨?_, ?_, ?_⟩
  · intro text h
    unfold extractJsonWithFallback
    by_cases hin : pyInChar '{' (fenceStrip text) = true
    · rw [if_pos hin, h]
    · rw [if_neg hin]
  · intro text span h
    unfold extractJsonWithFallback
    rw [if_pos (locateObjectSpan_some_pyInChar h), h]
  · intro text j h
    unfold extractJsonWithFallback at h
    by_cases hin : pyInChar '{' (fenceStrip text) = true
    · rw [if_pos hin] at h
      cases hl : locateObjectSpan (fenceStrip text) with
      | none =>
          rw [hl] at h
          exact absurd h (by simp)
      | some span =>
          rw [hl] at h
          refine ⟨span, rfl, ?_⟩
          split at h
          · rename_i j' hp
            injection hp with hpe
            subst hpe
            split at h
            · rename_i jj hjj
              injection h with h
              rw [hjj, h]
            · exact absurd h (by simp)
          · exact absurd h (by simp)
    · rw [if_neg hin] at h
      exact absurd h (by simp)

/-- Concrete run of `extractor_malformed_spec`: a truncated object fails
with `MalformedOutput`, and prose around a nested object parses exactly
the balanced span. -/
theorem extractor_malformed_spec_witness :
    extractJsonWithFallback "```json\n\x7b\"a\": [1, 2" = .error .noJson ∧
    extractJsonWithFallback "prose \x7b\"a\": \x7b\"b\": 2\x7d\x7d trailing \x7d" =
      (match jsonParse "\x7b\"a\": \x7b\"b\": 2\x7d\x7d" with
       | some j => Except.ok j
       | none => Except.error ExtractErr.invalidJson) := by
  exact ⟨extractor_malformed_spec.1 "```json\n\x7b\"a\": [1, 2" (by rfl),
    extractor_malformed_spec.2.1 "prose \x7b\"a\": \x7b\"b\": 2\x7d\x7d trailing \x7d"
      "\x7b\"a\": \x7b\"b\": 2\x7d\x7d" (by rfl)⟩

end Pipeline

namespace Pipeline

lemma braceScan_pos {l : List Char} {d : Int} {i L : Nat}
    (h : braceScan l d i = some L) : i + 1 ≤ L := braceScan_le h

/-- **C9 (amended).** The judge does *not* use the brace-balanced
extraction of §4.1: it slices from the first `{` to the *last* `}` of the
fence-stripped text.  The two selections coincide exactly on texts where
the last `}` is the balanced span's own closer — in particular whenever
no `}` follows the balanced object — as stated here; the counterexample
theorem separates them on a text with a stray trailing `}`. -/
theorem judge_span_spec (text : String) (s L : Nat)
    (hraw : pyInChar '{' text = true)
    (hfind : pyFindChar (fenceStrip text) '{' = some s)
    (hscan : braceScan ((fenceStrip text).toList.drop s) 0 0 = some L)
    (hlast : pyRFindChar (fenceStrip text) '}' = some (s + L - 1)) :
    judgeSelectedSpan text = analyzerSelectedSpan text ∧
    judgeSelectedSpan text = some (pySlice (fenceStrip text) s (s + L)) := by
  have hL : 1 ≤ L := braceScan_pos hscan
  have hstrip : pyInChar '{' (fenceStrip text) = true :=
    pyInChar_of_pyFindChar_eq_some hfind
  have hj : judgeSelectedSpan text = some (pySlice (fenceStrip text) s (s + L)) := by
    unfold judgeSelectedSpan firstToLastSpan
    rw [if_pos hraw, if_pos hstrip]
    simp only [hfind, hlast]
    rw [if_pos (show s ≤ s + L - 1 by omega)]
    have harith : s + L - 1 + 1 = s + L := by omega
    rw [harith]
  have ha : analyzerSelectedSpan text = some (pySlice (fenceStrip text) s (s + L)) := by
    unfold analyzerSelectedSpan locateObjectSpan
    simp only [hfind, hscan]
  exact ⟨hj.trans ha.symm, hj⟩

/-- Concrete run of `judge_span_spec` on a clean judgement text, where
both selections agree. -/
theorem judge_span_spec_witness :
    judgeSelectedSpan "\x7b\"relevance_score\": 0.9\x7d" =
      analyzerSelectedSpan "\x7b\"relevance_score\": 0.9\x7d" ∧
    judgeSelectedSpan "\x7b\"relevance_score\": 0.9\x7d" =
      some "\x7b\"relevance_score\": 0.9\x7d" := by
  have := judge_span_spec "\x7b\"relevance_score\": 0.9\x7d" 0 24 (by rfl) (by rfl)
    (by rfl) (by rfl)
  refine ⟨this.1, ?_⟩
  rw [this.2]
  decide

/-- The claim's counterexample: with a stray `}` after the balanced
object, the judge's first-`{`-to-last-`}` slice differs from the
brace-balanced span of §4.1 (and its parse then fails, so the judgement
is dropped where the balanced extraction would have found it). -/
theorem judge_span_counterexample :
    judgeSelectedSpan "\x7b\"relevance_score\": 1\x7d x \x7d" =
      some "\x7b\"relevance_score\": 1\x7d x \x7d" ∧
    analyzerSelectedSpan "\x7b\"relevance_score\": 1\x7d x \x7d" =
      some "\x7b\"relevance_score\": 1\x7d" ∧
    judgeSelectedSpan "\x7b\"relevance_score\": 1\x7d x \x7d" ≠
      analyzerSelectedSpan "\x7b\"relevance_score\": 1\x7d x \x7d" ∧
    scanJudgementBlock "\x7b\"relevance_score\": 1\x7d x \x7d" = none := by
  exact ⟨rfl, rfl, by decide, rfl⟩

end Pipeline

namespace Pipeline

/-- **C6 (amended).** Provided the `except` handler's own unprotected
`disconnect()` does not raise, `analyze` never raises: on any failure —
connect, send, stream, the happy-path disconnect, extraction failure or
schema mismatch — it returns the deterministic mock analysis keyed off
keyword matches in the lowercased target job title: titles containing
`cloud` or `infrastructure` get the fixed five-item skill-gap list,
otherwise titles containing `data` get the three-item list, and all other
titles the generic two-item list.  (The counterexample theorem shows the
unamended "never raises" is false when that cleanup disconnect raises.) -/
theorem analyzer_mock_fallback_spec (env : AnalyzerEnv) (input_data : AnalyzerInput)
    (hclean : env.cleanupRaises = false) :
    (∃ r, analyze env input_data = .ok r) ∧
    (analyzeAttempt env = none →
       analyze env input_data = .ok (generateMockAnalysis input_data)) ∧
    ((pyInStr "cloud" (pyLower input_data.target_job_title) ||
        pyInStr "infrastructure" (pyLower input_data.target_job_title)) = true →
       (generateMockAnalysis input_data).skill_gaps.length = 5) ∧
    ((pyInStr "cloud" (pyLower input_data.target_job_title) ||
        pyInStr "infrastructure" (pyLower input_data.target_job_title)) = false →
       pyInStr "data" (pyLower input_data.target_job_title) = true →
       (generateMockAnalysis input_data).skill_gaps.length = 3) ∧
    ((pyInStr "cloud" (pyLower input_data.target_job_title) ||
        pyInStr "infrastructure" (pyLower input_data.target_job_title)) = false →
       pyInStr "data" (pyLower input_data.target_job_title) = false →
       (generateMockAnalysis input_data).skill_gaps.length = 2) := by
  refine ⟨?_, ?_, ?_, ?_, ?_⟩
  · unfold analyze
    cases ha : analyzeAttempt env with
    | some r => exact ⟨r, rfl⟩
    | none => exact ⟨generateMockAnalysis input_data, by rw [hclean]; rfl⟩
  · intro ha
    unfold analyze
    rw [ha, hclean]
    rfl
  · intro hkw
    simp [generateMockAnalysis, hkw]
  · intro hkw hdata
    simp only [Bool.or_eq_false_iff] at hkw
    simp [generateMockAnalysis, hkw.1, hkw.2, hdata]
  · intro hkw hdata
    simp only [Bool.or_eq_false_iff] at hkw
    simp [generateMockAnalysis, hkw.1, hkw.2, hdata]

/-- Concrete run of `analyzer_mock_fallback_spec`: with the analyzer
session down and a working cleanup, a `Cloud` title yields the five-item
mock, a `Data` title the three-item mock, a generic title the two-item
mock, and `analyze` returns the mock rather than raising. -/
theorem analyzer_mock_fallback_spec_witness :
    analyze analyzerEnvDownW
      { resume_text := "r", job_description := "j", target_job_title := "Cloud Engineer" } =
      .ok (generateMockAnalysis
        { resume_text := "r", job_description := "j", target_job_title := "Cloud Engineer" }) ∧
    (generateMockAnalysis
      { resume_text := "r", job_description := "j", target_job_title := "Cloud Engineer" }).skill_gaps.length = 5 ∧
    (generateMockAnalysis
      { resume_text := "r", job_description := "j", target_job_title := "Data Analyst" }).skill_gaps.length = 3 ∧
    (generateMockAnalysis
      { resume_text := "r", job_description := "j", target_job_title := "Senior DevOps Engineer" }).skill_gaps.length = 2 := by
  refine ⟨(analyzer_mock_fallback_spec analyzerEnvDownW
      { resume_text := "r", job_description := "j", target_job_title := "Cloud Engineer" } rfl).2.1 rfl,
    (analyzer_mock_fallback_spec analyzerEnvDownW
      { resume_text := "r", job_description := "j", target_job_title := "Cloud Engineer" } rfl).2.2.1 (by decide),
    (analyzer_mock_fallback_spec analyzerEnvDownW
      { resume_text := "r", job_description := "j", target_job_title := "Data Analyst" } rfl).2.2.2.1 (by decide) (by decide),
    (analyzer_mock_fallback_spec analyzerEnvDownW
      { resume_text := "r", job_description := "j", target_job_title := "Senior DevOps Engineer" } rfl).2.2.2.2 (by decide) (by decide)⟩

/-- The claim's counterexample: when the session fails *and* the cleanup
`disconnect()` inside the `except` handler itself raises, the exception
escapes `analyze` — "never raises" does not hold unconditionally. -/
theorem analyzer_raises_counterexample :
    analyze { connect := .error (), send := .ok (), stream := .ok []
              disconnectRaises := false, cleanupRaises := true }
      { resume_text := "r", job_description := "j", target_job_title := "T" } =
      .error () := by
  rfl

end Pipeline

namespace Pipeline

lemma processRequest_hit (env : OrchestratorEnv) (store : CacheStore)
    (jid : String) (request : AnalysisRequest) (c : AnalysisResult)
    (hc : env.enable_cache = true) (hg : env.cache.getRaises = false)
    (hhit : dictGet store (generateCacheKey env.cache.hash request.resume_text
      request.job_description) = some c) :
    (processRequest env store jid request).1.analysis_result = some c ∧
    (processRequest env store jid request).2.2 = false ∧
    (processRequest env store jid request).2.1 =
      cacheAnalysis env.cache store request.resume_text request.job_description c := by
  unfold processRequest getAnalysis
  simp only [hc, if_true, hg, Bool.false_eq_true, if_false, hhit]
  cases hf : request.filters with
  | none => exact ⟨rfl, rfl, rfl⟩
  | some filters => exact ⟨rfl, rfl, rfl⟩

lemma processRequest_miss (env : OrchestratorEnv) (store : CacheStore)
    (jid : String) (request : AnalysisRequest) (a : AnalysisResult)
    (hc : env.enable_cache = true) (hg : env.cache.getRaises = false)
    (hmiss : dictGet store (generateCacheKey env.cache.hash request.resume_text
      request.job_description) = none)
    (ha : analyze env.analyzerEnv
      { resume_text := request.resume_text
        job_description := request.job_description
        target_job_title := request.target_job_title } = .ok a) :
    (processRequest env store jid request).1.analysis_result = some a ∧
    (processRequest env store jid request).2.2 = true ∧
    (processRequest env store jid request).2.1 =
      cacheAnalysis env.cache store request.resume_text request.job_description a := by
  unfold processRequest getAnalysis
  simp only [hc, if_true, hg, Bool.false_eq_true, if_false, hmiss, ha]
  cases hf : request.filters with
  | none => exact ⟨rfl, rfl, rfl⟩
  | some filters => exact ⟨rfl, rfl, rfl⟩

end Pipeline

namespace Pipeline

/-- **C8.** With caching enabled and the cache readable: the cache key is
the `skill_analysis:`-prefixed hash of the `|`-joined resume text and job
description; on a hit the analyzer is skipped and the job's
`analysis_result` is exactly the cached value; a cache write followed by
a read of the same inputs returns the written value (round trip); and two
identical submissions give equal `analysis_result`s with the analyzer
session not invoked on the second. -/
theorem orchestrator_cache_spec (env : OrchestratorEnv) (store : CacheStore)
    (jid1 jid2 : String) (request : AnalysisRequest)
    (hc : env.enable_cache = true) (hg : env.cache.getRaises = false) :
    (∀ r j, generateCacheKey env.cache.hash r j =
       "skill_analysis:" ++ env.cache.hash (r ++ "|" ++ j)) ∧
    (∀ c, dictGet store (generateCacheKey env.cache.hash request.resume_text
         request.job_description) = some c →
       (processRequest env store jid1 request).1.analysis_result = some c ∧
       (processRequest env store jid1 request).2.2 = false) ∧
    (∀ r j a, env.cache.putRaises = false →
       getAnalysis env.cache (cacheAnalysis env.cache store r j a) r j = some a) ∧
    (∀ a, env.cache.putRaises = false →
       analyze env.analyzerEnv
         { resume_text := request.resume_text
           job_description := request.job_description
           target_job_title := request.target_job_title } = .ok a →
       (processRequest env (processRequest env store jid1 request).2.1 jid2
           request).1.analysis_result =
         (processRequest env store jid1 request).1.analysis_result ∧
       (processRequest env (processRequest env store jid1 request).2.1 jid2
           request).2.2 = false) := by
  refine ⟨fun r j => rfl, ?_, ?_, ?_⟩
  · intro c hhit
    exact ⟨(processRequest_hit env store jid1 request c hc hg hhit).1,
      (processRequest_hit env store jid1 request c hc hg hhit).2.1⟩
  · intro r j a hput
    unfold getAnalysis cacheAnalysis
    simp only [hg, Bool.false_eq_true, if_false, hput]
    exact dictGet_dictInsert_self store _ a
  · intro a hput ha
    cases hl : dictGet store (generateCacheKey env.cache.hash request.resume_text
        request.job_description) with
    | some c =>
        obtain ⟨h1, _, h3⟩ := processRequest_hit env store jid1 request c hc hg hl
        have hstore2 : dictGet (processRequest env store jid1 request).2.1
            (generateCacheKey env.cache.hash request.resume_text
              request.job_description) = some c := by
          rw [h3]
          unfold cacheAnalysis
          rw [if_neg (by simp [hput])]
          exact dictGet_dictInsert_self store _ c
        obtain ⟨h1', h2', _⟩ := processRequest_hit env _ jid2 request c hc hg hstore2
        exact ⟨by rw [h1', h1], h2'⟩
    | none =>
        obtain ⟨h1, _, h3⟩ := processRequest_miss env store jid1 request a hc hg hl ha
        have hstore2 : dictGet (processRequest env store jid1 request).2.1
            (generateCacheKey env.cache.hash request.resume_text
              request.job_description) = some a := by
          rw [h3]
          unfold cacheAnalysis
          rw [if_neg (by simp [hput])]
          exact dictGet_dictInsert_self store _ a
        obtain ⟨h1', h2', _⟩ := processRequest_hit env _ jid2 request a hc hg hstore2
        exact ⟨by rw [h1', h1], h2'⟩

/-- Concrete run of `orchestrator_cache_spec` over the degraded-world
environment: the second identical submission reuses the first run's
cached mock analysis without invoking the analyzer. -/
theorem orchestrator_cache_spec_witness :
    (processRequest orchestratorEnvW
        (processRequest orchestratorEnvW [] "job-1" requestW).2.1 "job-2"
        requestW).1.analysis_result =
      (processRequest orchestratorEnvW [] "job-1" requestW).1.analysis_result ∧
    (processRequest orchestratorEnvW
        (processRequest orchestratorEnvW [] "job-1" requestW).2.1 "job-2"
        requestW).2.2 = false ∧
    generateCacheKey orchestratorEnvW.cache.hash "r" "j" = "skill_analysis:r|j" := by
  refine ⟨?_, ?_, ?_⟩
  · exact ((orchestrator_cache_spec orchestratorEnvW [] "job-1" "job-2" requestW rfl
      rfl).2.2.2 (generateMockAnalysis
        { resume_text := requestW.resume_text
          job_description := requestW.job_description
          target_job_title := requestW.target_job_title }) rfl (by rfl)).1
  · exact ((orchestrator_cache_spec orchestratorEnvW [] "job-1" "job-2" requestW rfl
      rfl).2.2.2 (generateMockAnalysis
        { resume_text := requestW.resume_text
          job_description := requestW.job_description
          target_job_title := requestW.target_job_title }) rfl (by rfl)).2
  · exact (orchestrator_cache_spec orchestratorEnvW [] "job-1" "job-2" requestW rfl
      rfl).1 "r" "j"

end Pipeline

namespace Pipeline

/-- **C1 (code bug).** Evaluation of `process_request` at a failing input:
submitting the request with an explicit `filters: null` makes
`curate_resources` raise on `filters.free_only` after the analysis phase
has completed, so the `except` handler runs.  The returned job has
status `failed` and retains the `analysis_result` set before the
exception (here the mock analysis) and the pre-exception
`curated_resources` — but `error_message` is left `None`: the handler at
`orchestrator.py` lines 206–209 only sets `status`, never
`error_message`, contradicting the spec and the repository's own test
(`tests/test_integration.py` line 120 asserts `error_message is not
None`). -/
theorem orchestrator_failed_error_message_bug :
    (processRequest orchestratorEnvW [] "job-1" requestNullFiltersW).1.status =
      .failed ∧
    (processRequest orchestratorEnvW [] "job-1" requestNullFiltersW).1.analysis_result =
      some (generateMockAnalysis
        { resume_text := requestNullFiltersW.resume_text
          job_description := requestNullFiltersW.job_description
          target_job_title := requestNullFiltersW.target_job_title }) ∧
    (processRequest orchestratorEnvW [] "job-1" requestNullFiltersW).1.curated_resources = [] ∧
    (processRequest orchestratorEnvW [] "job-1" requestNullFiltersW).1.error_message = none := by
  exact ⟨rfl, rfl, rfl, rfl⟩

end Pipeline
